import Mathlib

/-!
# ACA_OVS_Programmer: bridge bootstrap and flow pipeline

Shallow embedding of `src/ovs/aca_ovs_programmer.cpp`.

* The process-wide singletons the C++ code reaches through `get_instance()`
  (the command executor `Aca_Net_Config` and the registry `ACA_Vlan_Manager`)
  become fields of an explicit `World`; their code is not part of this file's
  source, so their operations are the fields of `Env`.
* `culminative_time` and `overall_rc` are by-reference parameters in C++; here
  they live in a `Frame` that every command primitive transforms.
* `World.trace` is ghost state: every string handed to
  `execute_system_command` is appended to it together with the status it
  returned.  Nothing in the embedded code reads it.
* C++ exceptions become the `Except.error` result; the world at the moment of
  the throw is returned next to it.
* `setup_ovs_bridges_mutex` is not modelled: the embedding is sequential.

The statements about several calls, about the registry's endpoint list and
about the flow table of br-tun are made over a registry modelled from the spec
(`model_get_or_create_vlan_id`, `model_add_outport`, ...) and over a switch
model that reads the issued command texts (`ovs_execute`).
-/

set_option autoImplicit false
set_option linter.unusedVariables false
set_option maxRecDepth 100000

namespace aca_ovs_programmer

/-! ## Data model -/

/-- C `EXIT_SUCCESS`. -/
abbrev EXIT_SUCCESS : Int := 0

/-- C `EXIT_FAILURE`. -/
abbrev EXIT_FAILURE : Int := 1

/-- The two exception classes thrown by the operations, with their message. -/
inductive Exn where
  | invalid_argument (what : String)
  | runtime_error (what : String)
deriving DecidableEq, Repr

/-- Everything outside this translation unit.  `S` is the state behind the
command executor (the switch and the host), `V` the state of the
`ACA_Vlan_Manager` singleton, `N` is `alcor::schema::NetworkType`. -/
structure Env (S V N : Type) where
  /-- `Aca_Net_Config::execute_system_command(cmd)`: status, the nanoseconds the
  caller's steady clock measures around the call, and the next state. -/
  execute_system_command : String → S → (Int × Nat) × S
  /-- `ACA_Vlan_Manager::get_or_create_vlan_id(vpc_id)`. -/
  get_or_create_vlan_id : String → V → Int × V
  /-- `ACA_Vlan_Manager::add_ovs_port(vpc_id, port_name)`. -/
  add_ovs_port : String → String → V → V
  /-- `ACA_Vlan_Manager::add_outport(vpc_id, outport_name)`. -/
  add_outport : String → String → V → V
  /-- `ACA_Vlan_Manager::get_outports(vpc_id, outports&)`: status and the text
  written to the out-parameter. -/
  get_outports : String → V → (Int × String) × V
  /-- `aca_get_outport_name(network_type, remote_ip)`. -/
  aca_get_outport_name : N → String → String
  /-- `aca_get_network_type_string(network_type)`. -/
  aca_get_network_type_string : N → String
  /-- The global `g_demo_mode`. -/
  g_demo_mode : Bool

/-- State of the singletons plus the ghost trace of issued commands. -/
structure World (S V : Type) where
  sw : S
  reg : V
  trace : List (String × Int)

/-- The two by-reference locals of a caller together with the world. -/
structure Frame (S V : Type) where
  culminative_time : Nat
  overall_rc : Int
  w : World S V

/-! ## Command issuance -/

/-- One call of `execute_system_command(cmd)`: runs the executor and logs the
command with its status in the ghost trace. -/
def system_command {S V N : Type} (env : Env S V N) (cmd : String) (w : World S V) :
    (Int × Nat) × World S V :=
  let r := env.execute_system_command cmd w.sw
  (r.1, { w with sw := r.2, trace := w.trace ++ [(cmd, r.1.1)] })

/-- Modelled from the spec: the two-argument overload
`execute_system_command(cmd, culminative_time&)` of `Aca_Net_Config` is not in
the source; per the command-issuance section it measures the elapsed time and
adds it to the caller's running total.  Returns the status. -/
def execute_system_command_timed {S V N : Type} (env : Env S V N) (cmd : String)
    (f : Frame S V) : Int × Frame S V :=
  let r := system_command env cmd f.w
  (r.1.1, { f with culminative_time := (f.culminative_time + r.1.2) % 2 ^ 64, w := r.2 })

/-- `ACA_OVS_Programmer::execute_ovsdb_command`. -/
def execute_ovsdb_command {S V N : Type} (env : Env S V N) (cmd_string : String)
    (f : Frame S V) : Frame S V :=
  let ovsdb_cmd_string := "/usr/bin/ovs-vsctl " ++ cmd_string
  let r := system_command env ovsdb_cmd_string f.w
  let rc := r.1.1
  { culminative_time := (f.culminative_time + r.1.2) % 2 ^ 64
    overall_rc := if rc ≠ EXIT_SUCCESS then rc else f.overall_rc
    w := r.2 }

/-- `ACA_OVS_Programmer::execute_openflow_command`. -/
def execute_openflow_command {S V N : Type} (env : Env S V N) (cmd_string : String)
    (f : Frame S V) : Frame S V :=
  let openflow_cmd_string := "/usr/bin/ovs-ofctl " ++ cmd_string
  let r := system_command env openflow_cmd_string f.w
  let rc := r.1.1
  { culminative_time := (f.culminative_time + r.1.2) % 2 ^ 64
    overall_rc := if rc ≠ EXIT_SUCCESS then rc else f.overall_rc
    w := r.2 }

/-! ## Bridge bootstrap -/

/-- `ACA_OVS_Programmer::setup_ovs_bridges_if_need`.  The local
`not_care_culminative_time` is uninitialised in C++ and never read back; it
starts at `0` here. -/
def setup_ovs_bridges_if_need {S V N : Type} (env : Env S V N) (w : World S V) :
    Int × World S V :=
  let f : Frame S V := { culminative_time := 0, overall_rc := EXIT_SUCCESS, w := w }
  -- check to see if br-int and br-tun is already there
  let f := execute_ovsdb_command env "br-exists br-int" f
  let br_int_existed : Bool := f.overall_rc == EXIT_SUCCESS
  let f := execute_ovsdb_command env "br-exists br-tun" f
  let br_tun_existed : Bool := f.overall_rc == EXIT_SUCCESS
  let f := { f with overall_rc := EXIT_SUCCESS }
  if br_int_existed && br_int_existed then
    -- case 1: both br-int and br-tun exist
    (f.overall_rc, f.w)
  else if !br_int_existed && !br_int_existed then
    -- case 2: both br-int and br-tun not there, create them
    let f := execute_ovsdb_command env "add-br br-int" f
    let f := execute_ovsdb_command env "add-br br-tun" f
    let f := execute_ovsdb_command env "add-port br-int patch-tun" f
    let f := execute_ovsdb_command env "set interface patch-tun type=patch" f
    let f := execute_ovsdb_command env "set interface patch-tun options:peer=patch-int" f
    let f := execute_ovsdb_command env "add-port br-tun patch-int" f
    let f := execute_ovsdb_command env "set interface patch-int type=patch" f
    let f := execute_ovsdb_command env "set interface patch-int options:peer=patch-tun" f
    let f := execute_openflow_command env
      "add-flow br-tun \"table=0, priority=1,in_port=\"patch-int\" actions=resubmit(,2)\"" f
    let f := execute_openflow_command env
      "add-flow br-tun \"table=2, priority=0 actions=resubmit(,22)\"" f
    (f.overall_rc, f.w)
  else
    -- case 3: only one of the br-int or br-tun is there
    (EXIT_FAILURE, f.w)

/-! ## Port admission -/

/-- `ACA_OVS_Programmer::configure_port`.  Returns the thrown exception or the
returned status, the caller's `culminative_time`, and the world. -/
def configure_port {S V N : Type} (env : Env S V N) (vpc_id port_name virtual_ip : String)
    (tunnel_id : Nat) (culminative_time : Nat) (w : World S V) :
    Except Exn Int × Nat × World S V :=
  if vpc_id.isEmpty then
    (.error (.invalid_argument "vpc_id is empty"), culminative_time, w)
  else if port_name.isEmpty then
    (.error (.invalid_argument "port_name is empty"), culminative_time, w)
  else if virtual_ip.isEmpty then
    (.error (.invalid_argument "virtual_ip is empty"), culminative_time, w)
  else if tunnel_id = 0 then
    (.error (.invalid_argument "tunnel_id is 0"), culminative_time, w)
  else
    let boot := setup_ovs_bridges_if_need env w
    let overall_rc := boot.1
    let w := boot.2
    if overall_rc ≠ EXIT_SUCCESS then
      (.error (.runtime_error "Invalid environment with br-int and br-tun"), culminative_time, w)
    else
      let alloc := env.get_or_create_vlan_id vpc_id w.reg
      let internal_vlan_id := alloc.1
      let reg := env.add_ovs_port vpc_id port_name alloc.2
      let f : Frame S V :=
        { culminative_time := culminative_time, overall_rc := overall_rc,
          w := { w with reg := reg } }
      let f :=
        if env.g_demo_mode then
          let cmd_string := "add-port br-int " ++ port_name ++ " tag=" ++
            toString internal_vlan_id ++ " -- set Interface " ++ port_name ++ " type=internal"
          let f := execute_ovsdb_command env cmd_string f
          let cmd_string := "ip addr add " ++ virtual_ip ++ " dev " ++ port_name
          let r := execute_system_command_timed env cmd_string f
          let command_rc := r.1
          let f := if command_rc ≠ EXIT_SUCCESS then { r.2 with overall_rc := command_rc } else r.2
          let cmd_string := "ip link set " ++ port_name ++ " up"
          let r := execute_system_command_timed env cmd_string f
          let command_rc := r.1
          if command_rc ≠ EXIT_SUCCESS then { r.2 with overall_rc := command_rc } else r.2
        else f
      let f := execute_openflow_command env
        ("add-flow br-tun \"table=4, priority=1,tun_id=" ++ toString tunnel_id ++
          " actions=mod_vlan_vid:" ++ toString internal_vlan_id ++ ",output:\"patch-int\"\"") f
      (.ok f.overall_rc, f.culminative_time, f.w)

/-! ## Neighbor fan-out -/

/-- `ACA_OVS_Programmer::create_update_neighbor_port`. -/
def create_update_neighbor_port {S V N : Type} (env : Env S V N) (vpc_id : String)
    (network_type : N) (remote_ip : String) (tunnel_id : Nat) (culminative_time : Nat)
    (w : World S V) : Except Exn Int × Nat × World S V :=
  if vpc_id.isEmpty then
    (.error (.invalid_argument "vpc_id is empty"), culminative_time, w)
  else if remote_ip.isEmpty then
    (.error (.invalid_argument "remote_ip is empty"), culminative_time, w)
  else if tunnel_id = 0 then
    (.error (.invalid_argument "tunnel_id is 0"), culminative_time, w)
  else
    let boot := setup_ovs_bridges_if_need env w
    let overall_rc := boot.1
    let w := boot.2
    if overall_rc ≠ EXIT_SUCCESS then
      (.error (.runtime_error "Invalid environment with br-int and br-tun"), culminative_time, w)
    else
      let outport_name := env.aca_get_outport_name network_type remote_ip
      let cmd_string := "--may-exist add-port br-tun " ++ outport_name ++ " -- set interface " ++
        outport_name ++ " type=" ++ env.aca_get_network_type_string network_type ++
        " options:df_default=true options:egress_pkt_mark=0 options:in_key=flow options:out_key=flow options:remote_ip=" ++
        remote_ip
      let f : Frame S V :=
        { culminative_time := culminative_time, overall_rc := overall_rc, w := w }
      let f := execute_ovsdb_command env cmd_string f
      let alloc := env.get_or_create_vlan_id vpc_id f.w.reg
      let internal_vlan_id := alloc.1
      let reg := env.add_outport vpc_id outport_name alloc.2
      let got := env.get_outports vpc_id reg
      let full_outport_list := got.1.2
      let f := { f with overall_rc := got.1.1, w := { f.w with reg := got.2 } }
      if f.overall_rc ≠ EXIT_SUCCESS then
        (.error (.runtime_error "vpc_id entry not find in vpc_table"), f.culminative_time, f.w)
      else
        let cmd_string := "add-flow br-tun \"table=22, priority=1,dl_vlan=" ++
          toString internal_vlan_id ++ " actions=strip_vlan,load:" ++ toString tunnel_id ++
          "->NXM_NX_TUN_ID[],output:\"" ++ full_outport_list ++ "\"\""
        let f := execute_openflow_command env cmd_string f
        let cmd_string := "add-flow br-tun \"table=0, priority=1,in_port=\"" ++
          outport_name ++ "\" actions=resubmit(,4)\""
        let f := execute_openflow_command env cmd_string f
        (.ok f.overall_rc, f.culminative_time, f.w)

/-- Successive port admissions under one `vpc_id`, one per triple of port name,
virtual address and tunnel identifier; each call starts from the elapsed-time
total and the world the previous one left, and the result of each call is
collected. -/
def port_calls {S V N : Type} (env : Env S V N) (vpc_id : String) :
    List (String × String × Nat) → Nat → World S V → List (Except Exn Int) × Nat × World S V
  | [], t, w => ([], t, w)
  | c :: rest, t, w =>
    ((configure_port env vpc_id c.1 c.2.1 c.2.2 t w).1 ::
        (port_calls env vpc_id rest
          (configure_port env vpc_id c.1 c.2.1 c.2.2 t w).2.1
          (configure_port env vpc_id c.1 c.2.1 c.2.2 t w).2.2).1,
      (port_calls env vpc_id rest
        (configure_port env vpc_id c.1 c.2.1 c.2.2 t w).2.1
        (configure_port env vpc_id c.1 c.2.1 c.2.2 t w).2.2).2)

/-- Successive neighbor admissions under one `vpc_id`, one per triple of
network type, remote address and tunnel identifier; each call starts from the
elapsed-time total and the world the previous one left, and the result of each
call is collected. -/
def neighbor_calls {S V N : Type} (env : Env S V N) (vpc_id : String) :
    List (N × String × Nat) → Nat → World S V → List (Except Exn Int) × Nat × World S V
  | [], t, w => ([], t, w)
  | c :: rest, t, w =>
    ((create_update_neighbor_port env vpc_id c.1 c.2.1 c.2.2 t w).1 ::
        (neighbor_calls env vpc_id rest
          (create_update_neighbor_port env vpc_id c.1 c.2.1 c.2.2 t w).2.1
          (create_update_neighbor_port env vpc_id c.1 c.2.1 c.2.2 t w).2.2).1,
      (neighbor_calls env vpc_id rest
        (create_update_neighbor_port env vpc_id c.1 c.2.1 c.2.2 t w).2.1
        (create_update_neighbor_port env vpc_id c.1 c.2.1 c.2.2 t w).2.2).2)

/-! ## Vocabulary of the specification -/

/-- Aggregate status in the words of the spec, "last failure wins": the status
of the last command that reported non-success, or `init` if none did. -/
def last_failure (init : Int) (rcs : List Int) : Int :=
  rcs.foldl (fun acc rc => if rc ≠ EXIT_SUCCESS then rc else acc) init

/-- The two bridge-existence queries, as handed to the executor. -/
def bridge_queries : List String :=
  ["/usr/bin/ovs-vsctl br-exists br-int", "/usr/bin/ovs-vsctl br-exists br-tun"]

/-- The ten creation commands of the bootstrap in the order the spec lists
them: two bridges, the patch pair (each side created, typed, pointed at its
peer), the table-0 rule and the table-2 catch-all. -/
def creation_commands : List String :=
  ["/usr/bin/ovs-vsctl add-br br-int",
   "/usr/bin/ovs-vsctl add-br br-tun",
   "/usr/bin/ovs-vsctl add-port br-int patch-tun",
   "/usr/bin/ovs-vsctl set interface patch-tun type=patch",
   "/usr/bin/ovs-vsctl set interface patch-tun options:peer=patch-int",
   "/usr/bin/ovs-vsctl add-port br-tun patch-int",
   "/usr/bin/ovs-vsctl set interface patch-int type=patch",
   "/usr/bin/ovs-vsctl set interface patch-int options:peer=patch-tun",
   "/usr/bin/ovs-ofctl add-flow br-tun \"table=0, priority=1,in_port=\"patch-int\" actions=resubmit(,2)\"",
   "/usr/bin/ovs-ofctl add-flow br-tun \"table=2, priority=0 actions=resubmit(,22)\""]

/-- The create-if-absent endpoint-port command on br-tun: typed per the
encapsulation, default DF behaviour, no egress mark, flow-derived keys, pointing
at the remote address. -/
def endpoint_port_command (outport_name type_string remote_ip : String) : String :=
  "/usr/bin/ovs-vsctl --may-exist add-port br-tun " ++ outport_name ++ " -- set interface " ++
    outport_name ++ " type=" ++ type_string ++
    " options:df_default=true options:egress_pkt_mark=0 options:in_key=flow options:out_key=flow options:remote_ip=" ++
    remote_ip

/-- The table-22 flood rule: match the isolation tag, strip the VLAN tag, load
the tunnel identifier into the tunnel key, output to the listed endpoints. -/
def table22_command (tag : Int) (tunnel_id : Nat) (outputs : String) : String :=
  "/usr/bin/ovs-ofctl add-flow br-tun \"table=22, priority=1,dl_vlan=" ++ toString tag ++
    " actions=strip_vlan,load:" ++ toString tunnel_id ++ "->NXM_NX_TUN_ID[],output:\"" ++
    outputs ++ "\"\""

/-- The table-0 steering rule of an endpoint: ingress on the endpoint port is
resubmitted to table 4. -/
def table0_steering_command (outport_name : String) : String :=
  "/usr/bin/ovs-ofctl add-flow br-tun \"table=0, priority=1,in_port=\"" ++ outport_name ++
    "\" actions=resubmit(,4)\""

/-- The table-4 rule: match the tunnel identifier, rewrite the VLAN tag to the
isolation tag, output to patch-int. -/
def table4_command (tunnel_id : Nat) (tag : Int) : String :=
  "/usr/bin/ovs-ofctl add-flow br-tun \"table=4, priority=1,tun_id=" ++ toString tunnel_id ++
    " actions=mod_vlan_vid:" ++ toString tag ++ ",output:\"patch-int\"\""

/-- The three local-apply commands of a port: tagged internal port on br-int,
address assignment, link up. -/
def local_apply_commands (port_name virtual_ip : String) (tag : Int) : List String :=
  ["/usr/bin/ovs-vsctl add-port br-int " ++ port_name ++ " tag=" ++ toString tag ++
     " -- set Interface " ++ port_name ++ " type=internal",
   "ip addr add " ++ virtual_ip ++ " dev " ++ port_name,
   "ip link set " ++ port_name ++ " up"]

/-- Issuing a list of commands one after the other. -/
def run_all {S V N : Type} (env : Env S V N) : List String → World S V → World S V
  | [], w => w
  | c :: cs, w => run_all env cs (system_command env c w).2

/-- The statuses the executor returns when the commands are issued one after
the other from state `s`. -/
def statuses {S V N : Type} (env : Env S V N) : List String → S → List Int
  | [], _ => []
  | c :: cs, s =>
    (env.execute_system_command c s).1.1 :: statuses env cs (env.execute_system_command c s).2

/-- The common body of `execute_ovsdb_command` and `execute_openflow_command`
once the tool path is prepended: issue, add the elapsed time, record a
non-success status. -/
def issue {S V N : Type} (env : Env S V N) (cmd : String) (f : Frame S V) : Frame S V :=
  { culminative_time := (f.culminative_time + (system_command env cmd f.w).1.2) % 2 ^ 64
    overall_rc :=
      if (system_command env cmd f.w).1.1 ≠ EXIT_SUCCESS then (system_command env cmd f.w).1.1
      else f.overall_rc
    w := (system_command env cmd f.w).2 }

/-- Iterated `issue`. -/
def issue_all {S V N : Type} (env : Env S V N) : List String → Frame S V → Frame S V
  | [], f => f
  | c :: cs, f => issue_all env cs (issue env c f)

/-- The executor state after the commands are issued one after the other from
state `s`. -/
def sw_after {S V N : Type} (env : Env S V N) : List String → S → S
  | [], s => s
  | c :: cs, s => sw_after env cs (env.execute_system_command c s).2

/-- The trace entries appended to `before` by a run that ended in `after`. -/
def issued_since {S V : Type} (before after : World S V) : List (String × Int) :=
  after.trace.drop before.trace.length

/-! ## Test doubles -/

/-- Scripted executor: the state is the list of statuses still to be handed
out; each command consumes one, an exhausted script answers success.  Every
command is measured as one nanosecond. -/
def scripted_sink : String → List Int → (Int × Nat) × List Int
  | _, [] => ((EXIT_SUCCESS, 1), [])
  | _, rc :: rest => ((rc, 1), rest)

/-- Modelled from the spec: an entry of the registry table of `ACA_Vlan_Manager`
(`aca_vlan_manager.h` is not in the source): the isolation tag of the VPC, its
local ports and its remote endpoint ports in registration order. -/
structure vpc_table_entry where
  vlan_id : Int
  ovs_ports : List String
  outports : List String
deriving DecidableEq, Repr

/-- Modelled from the spec: the registry table, one pair per VPC in allocation
order. -/
abbrev vpc_table : Type := List (String × vpc_table_entry)

/-- Entry of a VPC, if it has one. -/
def find_vpc : vpc_table → String → Option vpc_table_entry
  | [], _ => none
  | (k, e) :: rest, vpc_id => if k = vpc_id then some e else find_vpc rest vpc_id

/-- Applies `g` to the entry of a VPC. -/
def update_vpc (g : vpc_table_entry → vpc_table_entry) : vpc_table → String → vpc_table
  | [], _ => []
  | (k, e) :: rest, vpc_id =>
    if k = vpc_id then (k, g e) :: rest else (k, e) :: update_vpc g rest vpc_id

/-- The remote endpoint ports the registry holds for a VPC (none if the VPC has
no entry). -/
def outports_of (t : vpc_table) (vpc_id : String) : List String :=
  match find_vpc t vpc_id with
  | some e => e.outports
  | none => []

/-- An ordered duplicate-free endpoint list with one more endpoint registered:
a new name goes to the end, a known name changes nothing. -/
def with_outport (outports : List String) (name : String) : List String :=
  if name ∈ outports then outports else outports ++ [name]

/-- Modelled from the spec: `get_or_create_tag(vpc_id) -> tag`, "allocated on
first reference and reused thereafter"; a fresh tag is the number of VPCs
seen so far plus one, so tags are unique per VPC. -/
def model_get_or_create_vlan_id (vpc_id : String) (t : vpc_table) : Int × vpc_table :=
  match find_vpc t vpc_id with
  | some e => (e.vlan_id, t)
  | none =>
    let tag : Int := ((t.length + 1 : Nat) : Int)
    (tag, t ++ [(vpc_id, { vlan_id := tag, ovs_ports := [], outports := [] })])

/-- Modelled from the spec: `add_local_port(vpc_id, port_name)`. -/
def model_add_ovs_port (vpc_id port_name : String) (t : vpc_table) : vpc_table :=
  update_vpc (fun e => if port_name ∈ e.ovs_ports then e
    else { e with ovs_ports := e.ovs_ports ++ [port_name] }) t vpc_id

/-- Modelled from the spec: `add_remote_endpoint(vpc_id, endpoint_name)`,
keeping the endpoint list ordered and duplicate-free. -/
def model_add_outport (vpc_id outport_name : String) (t : vpc_table) : vpc_table :=
  update_vpc (fun e => { e with outports := with_outport e.outports outport_name }) t vpc_id

/-- Modelled from the spec: `get_remote_endpoints(vpc_id) ->
ordered_list_of_name | not_found`.  The source receives the list as one text;
`render` is how the registry writes the ordered list into that text, and
`ENOENT` (2) is the not-found status. -/
def model_get_outports (render : List String → String) (vpc_id : String) (t : vpc_table) :
    (Int × String) × vpc_table :=
  match find_vpc t vpc_id with
  | some e => ((EXIT_SUCCESS, render e.outports), t)
  | none => ((2, ""), t)

/-- An environment whose registry is the model above; executor, endpoint
naming and the rest stay parameters. -/
def registry_env {S N : Type} (sink : String → S → (Int × Nat) × S)
    (render : List String → String) (outport_name : N → String → String)
    (type_string : N → String) (demo : Bool) : Env S vpc_table N :=
  { execute_system_command := sink
    get_or_create_vlan_id := model_get_or_create_vlan_id
    add_ovs_port := model_add_ovs_port
    add_outport := model_add_outport
    get_outports := model_get_outports render
    aca_get_outport_name := outport_name
    aca_get_network_type_string := type_string
    g_demo_mode := demo }

/-- Registry rendering used by the concrete instances: the names joined so that
the table-22 action reads `output:"a",output:"b"`. -/
def join_outports (names : List String) : String :=
  "\",output:\"".intercalate names

/-- Endpoint naming used by the concrete instances: type text, a dash, the
remote address. -/
def dash_name (network_type remote_ip : String) : String :=
  network_type ++ "-" ++ remote_ip

/-- Endpoint naming that ignores the encapsulation type: a fixed tag followed
by the remote address. -/
def address_name (network_type remote_ip : String) : String :=
  "ep-" ++ remote_ip

/-- Strips a literal from the front of a text. -/
def strip_lit : List Char → List Char → Option (List Char)
  | [], s => some s
  | _ :: _, [] => none
  | p :: ps, c :: cs => if p = c then strip_lit ps cs else none

/-- Splits a flow specification at its first ` actions=`. -/
def split_actions : List Char → Option (List Char × List Char)
  | [] => none
  | c :: cs =>
    match strip_lit " actions=".data (c :: cs) with
    | some acts => some ([], acts)
    | none => (split_actions cs).map fun p => (c :: p.1, p.2)

/-- Two texts differ at a position both have. -/
def mismatch : List Char → List Char → Bool
  | a :: p, b :: q => a != b || mismatch p q
  | _, _ => false

/-- No ` actions=` can start inside the text: every blank in it is followed by
a character other than `a`. -/
def skippable : List Char → Bool
  | [] => true
  | c :: rest =>
    (c != ' ' || (match rest with
      | x :: _ => x != 'a'
      | [] => false)) && skippable rest

/-- Value of a text of decimal digits. -/
def decimal_value (l : List Char) : Nat :=
  l.foldl (fun acc c => 10 * acc + (c.toNat - 48)) 0

/-- A rule of a flow table.  `key` is the text before ` actions=`, which spells
table, priority and match; `actions` is the text after it. -/
structure flow_rule where
  key : String
  actions : String
deriving DecidableEq, Repr

/-- Reads `/usr/bin/ovs-ofctl add-flow br-tun "<key> actions=<actions>"`. -/
def parse_add_flow (cmd : String) : Option flow_rule :=
  match strip_lit "/usr/bin/ovs-ofctl add-flow br-tun \"".data cmd.data with
  | none => none
  | some body =>
    match split_actions body with
    | none => none
    | some (k, a) =>
      if a.getLast? = some '"' then some { key := String.mk k, actions := String.mk a.dropLast }
      else none

/-- The `add-flow` semantics the claims assume: the new rule replaces any rule
of equal table, priority and match. -/
def add_flow (table : List flow_rule) (r : flow_rule) : List flow_rule :=
  table.filter (fun x => x.key ≠ r.key) ++ [r]

/-- Switch model: the existing bridges, the ports created on br-tun with
`--may-exist add-port`, and the flow table of br-tun. -/
structure ovs_switch where
  bridges : List String
  br_tun_ports : List String
  br_tun_flows : List flow_rule
deriving DecidableEq, Repr

/-- The port named by the arguments of an `add-port br-tun` command: the text
up to the first blank. -/
def port_of (args : List Char) : String :=
  String.mk (args.takeWhile (fun c => c != ' '))

/-- The port an endpoint-port command creates for an endpoint name: the name up
to its first blank. -/
def created_port (name : String) : String :=
  port_of name.data

/-- Switch model: `br-exists` succeeds exactly on an existing bridge (status 2
otherwise), `add-br` creates an absent bridge and fails on an existing one,
`--may-exist add-port br-tun` creates the port unless it exists, `add-flow
br-tun` installs by replacement, every other command succeeds without touching
bridges, ports or flows. -/
def ovs_execute (cmd : String) (s : ovs_switch) : (Int × Nat) × ovs_switch :=
  match strip_lit "/usr/bin/ovs-vsctl br-exists ".data cmd.data with
  | some b => ((if String.mk b ∈ s.bridges then EXIT_SUCCESS else 2, 1), s)
  | none =>
    match strip_lit "/usr/bin/ovs-vsctl add-br ".data cmd.data with
    | some b =>
      if String.mk b ∈ s.bridges then ((EXIT_FAILURE, 1), s)
      else ((EXIT_SUCCESS, 1), { s with bridges := s.bridges ++ [String.mk b] })
    | none =>
      match strip_lit "/usr/bin/ovs-vsctl --may-exist add-port br-tun ".data cmd.data with
      | some args =>
        ((EXIT_SUCCESS, 1), { s with br_tun_ports := with_outport s.br_tun_ports (port_of args) })
      | none =>
        match parse_add_flow cmd with
        | some r => ((EXIT_SUCCESS, 1), { s with br_tun_flows := add_flow s.br_tun_flows r })
        | none => ((EXIT_SUCCESS, 1), s)

/-- The scripted executor together with the model registry. -/
def scripted_env (demo : Bool) : Env (List Int) vpc_table String :=
  registry_env scripted_sink join_outports dash_name id demo

/-- A world with an empty registry and an empty trace. -/
def fresh_world {S : Type} (s : S) : World S vpc_table :=
  { sw := s, reg := [], trace := [] }

/-- The model switch together with the model registry; the rendering of the
endpoint list, the endpoint naming and the type text stay parameters. -/
def model_env {N : Type} (render : List String → String) (outport_name : N → String → String)
    (type_string : N → String) (demo : Bool) : Env ovs_switch vpc_table N :=
  registry_env ovs_execute render outport_name type_string demo

/-- The command that installs a rule on br-tun. -/
def add_flow_command (r : flow_rule) : String :=
  "/usr/bin/ovs-ofctl add-flow br-tun \"" ++ r.key ++ " actions=" ++ r.actions ++ "\""

/-- The table-4 rule for a tunnel identifier: rewrite the VLAN tag to the
isolation tag and output to patch-int. -/
def table4_rule (tunnel_id : Nat) (tag : Int) : flow_rule :=
  { key := "table=4, priority=1,tun_id=" ++ toString tunnel_id
    actions := "mod_vlan_vid:" ++ toString tag ++ ",output:\"patch-int\"" }

/-- The table-22 rule for an isolation tag: strip the VLAN tag, load the tunnel
identifier into the tunnel key, output to the listed endpoints. -/
def table22_rule (tag : Int) (tunnel_id : Nat) (outputs : String) : flow_rule :=
  { key := "table=22, priority=1,dl_vlan=" ++ toString tag
    actions := "strip_vlan,load:" ++ toString tunnel_id ++ "->NXM_NX_TUN_ID[],output:\"" ++
      outputs ++ "\"" }

/-- The baseline table-0 rule of the bootstrap: traffic from patch-int goes to
table 2. -/
def baseline_table0_rule : flow_rule :=
  { key := "table=0, priority=1,in_port=\"patch-int\"", actions := "resubmit(,2)" }

/-- The baseline table-2 catch-all of the bootstrap: on to table 22. -/
def baseline_table2_rule : flow_rule :=
  { key := "table=2, priority=0", actions := "resubmit(,22)" }

/-- The model switch and the model registry with the concrete rendering and
naming above; the network type is its own type text. -/
def ovs_env (demo : Bool) : Env ovs_switch vpc_table String :=
  model_env join_outports dash_name id demo

/-- A switch without bridges, ports and flows. -/
def empty_switch : ovs_switch :=
  { bridges := [], br_tun_ports := [], br_tun_flows := [] }

/-- A switch on which both bridges exist already, without ports and flows. -/
def wired_switch : ovs_switch :=
  { bridges := ["br-int", "br-tun"], br_tun_ports := [], br_tun_flows := [] }

/-- The rules of a flow table whose key starts with the text `p`. -/
def rules_with (p : String) (table : List flow_rule) : List flow_rule :=
  table.filter (fun r => p.data.isPrefixOf r.key.data)

/-! ## Command issuance: basic facts -/

section generic
variable {S V N : Type} (env : Env S V N)

@[simp] theorem system_command_fst (c : String) (w : World S V) :
    (system_command env c w).1 = (env.execute_system_command c w.sw).1 := rfl

@[simp] theorem system_command_sw (c : String) (w : World S V) :
    (system_command env c w).2.sw = (env.execute_system_command c w.sw).2 := rfl

@[simp] theorem system_command_reg (c : String) (w : World S V) :
    (system_command env c w).2.reg = w.reg := rfl

@[simp] theorem system_command_trace (c : String) (w : World S V) :
    (system_command env c w).2.trace = w.trace ++ [(c, (env.execute_system_command c
        w.sw).1.1)] := rfl

theorem last_failure_cons (i rc : Int) (l : List Int) :
    last_failure i (rc :: l) = last_failure (if rc ≠ EXIT_SUCCESS then rc else i) l := rfl

theorem last_failure_append (i : Int) (l : List Int) (rc : Int) :
    last_failure i (l ++ [rc]) = if rc ≠ EXIT_SUCCESS then rc else last_failure i l := by
  simp [last_failure, List.foldl_append]

theorem last_failure_eq_zero (l : List Int) :
    last_failure EXIT_SUCCESS l = EXIT_SUCCESS ↔ ∀ rc ∈ l, rc = EXIT_SUCCESS := by
  induction l using List.reverseRecOn with
  | nil => simp [last_failure]
  | append_singleton l rc ih =>
    rw [last_failure_append]
    by_cases h : rc = EXIT_SUCCESS
    · rw [if_neg (not_not.mpr h), ih]
      constructor
      · intro hl x hx
        rcases List.mem_append.mp hx with hx | hx
        · exact hl x hx
        · rw [List.mem_singleton.mp hx]; exact h
      · intro hl x hx
        exact hl x (List.mem_append_left _ hx)
    · rw [if_pos h]
      constructor
      · intro h0; exact absurd h0 h
      · intro hl; exact hl rc (List.mem_append_right _ (List.mem_singleton.mpr rfl))

theorem execute_ovsdb_command_eq (c : String) (f : Frame S V) :
    execute_ovsdb_command env c f = issue env ("/usr/bin/ovs-vsctl " ++ c) f := rfl

theorem execute_openflow_command_eq (c : String) (f : Frame S V) :
    execute_openflow_command env c f = issue env ("/usr/bin/ovs-ofctl " ++ c) f := rfl

theorem run_all_reg (cs : List String) (w : World S V) : (run_all env cs w).reg = w.reg := by
  induction cs generalizing w with
  | nil => rfl
  | cons c cs ih => simp [run_all, ih]

theorem run_all_append (cs ds : List String) (w : World S V) :
    run_all env (cs ++ ds) w = run_all env ds (run_all env cs w) := by
  induction cs generalizing w with
  | nil => rfl
  | cons c cs ih => simp [run_all, ih]

theorem run_all_trace (cs : List String) (w : World S V) :
    (run_all env cs w).trace = w.trace ++ cs.zip (statuses env cs w.sw) := by
  induction cs generalizing w with
  | nil => simp [run_all]
  | cons c cs ih => simp [run_all, statuses, ih]

theorem statuses_length (cs : List String) (s : S) : (statuses env cs s).length = cs.length := by
  induction cs generalizing s with
  | nil => rfl
  | cons c cs ih => simp [statuses, ih]

theorem issued_since_run_all (cs : List String) (w : World S V) :
    issued_since w (run_all env cs w) = cs.zip (statuses env cs w.sw) := by
  simp [issued_since, run_all_trace]

theorem issue_all_w (cs : List String) (f : Frame S V) :
    (issue_all env cs f).w = run_all env cs f.w := by
  induction cs generalizing f with
  | nil => rfl
  | cons c cs ih => simp [issue_all, run_all, ih, issue]

theorem issue_all_rc (cs : List String) (f : Frame S V) :
    (issue_all env cs f).overall_rc = last_failure f.overall_rc (statuses env cs f.w.sw) := by
  induction cs generalizing f with
  | nil => rfl
  | cons c cs ih => simp [issue_all, statuses, ih, issue, last_failure_cons]

theorem first_query_rc (w : World S V) :
    (execute_ovsdb_command env "br-exists br-int"
      { culminative_time := 0, overall_rc := EXIT_SUCCESS, w := w }).overall_rc =
    if (env.execute_system_command "/usr/bin/ovs-vsctl br-exists br-int" w.sw).1.1 ≠ EXIT_SUCCESS
    then (env.execute_system_command "/usr/bin/ovs-vsctl br-exists br-int" w.sw).1.1
    else EXIT_SUCCESS := rfl

theorem setup_fast (w : World S V)
    (h : (env.execute_system_command "/usr/bin/ovs-vsctl br-exists br-int" w.sw).1.1 =
        EXIT_SUCCESS) :
    setup_ovs_bridges_if_need env w = (EXIT_SUCCESS, run_all env bridge_queries w) := by
  have h1 : (execute_ovsdb_command env "br-exists br-int"
      { culminative_time := 0, overall_rc := EXIT_SUCCESS, w := w }).overall_rc = EXIT_SUCCESS := by
    rw [first_query_rc, if_neg (not_not.mpr h)]
  unfold setup_ovs_bridges_if_need
  simp only [h1, beq_self_eq_true, Bool.and_self, if_true]
  rfl

theorem setup_create (w : World S V)
    (h : (env.execute_system_command "/usr/bin/ovs-vsctl br-exists br-int" w.sw).1.1 ≠
        EXIT_SUCCESS) :
    setup_ovs_bridges_if_need env w =
      (last_failure EXIT_SUCCESS (statuses env creation_commands (run_all env bridge_queries w).sw),
       run_all env (bridge_queries ++ creation_commands) w) := by
  have h1 : ((execute_ovsdb_command env "br-exists br-int"
      { culminative_time := 0, overall_rc := EXIT_SUCCESS, w := w }).overall_rc == EXIT_SUCCESS)
      = false := by
    rw [beq_eq_false_iff_ne]
    rw [first_query_rc, if_pos h]; exact h
  have key : setup_ovs_bridges_if_need env w =
      ((issue_all env creation_commands
        { issue_all env bridge_queries { culminative_time := 0, overall_rc := EXIT_SUCCESS, w := w }
          with overall_rc := EXIT_SUCCESS }).overall_rc,
       (issue_all env creation_commands
        { issue_all env bridge_queries { culminative_time := 0, overall_rc := EXIT_SUCCESS, w := w }
          with overall_rc := EXIT_SUCCESS }).w) := by
    unfold setup_ovs_bridges_if_need
    simp only [h1, Bool.and_self, Bool.not_false, if_true, Bool.false_eq_true, if_false]
    rfl
  rw [key, issue_all_rc, issue_all_w, run_all_append]
  simp only [issue_all_w]

end generic

section generic
variable {S V N : Type} (env : Env S V N)

theorem statuses_append (cs ds : List String) (w : World S V) :
    statuses env (cs ++ ds) w.sw = statuses env cs w.sw ++ statuses env ds (run_all env cs
        w).sw := by
  induction cs generalizing w with
  | nil => rfl
  | cons c cs ih =>
    have := ih (system_command env c w).2
    simp only [system_command_sw] at this
    simp [statuses, run_all, this]

theorem issued_since_run_all_append (cs ds : List String) (w : World S V) :
    issued_since w (run_all env (cs ++ ds) w) =
      cs.zip (statuses env cs w.sw) ++ ds.zip (statuses env ds (run_all env cs w).sw) := by
  rw [issued_since_run_all, statuses_append, List.zip_append]
  rw [statuses_length]

theorem map_fst_zip_statuses (cs : List String) (s : S) :
    (cs.zip (statuses env cs s)).map Prod.fst = cs :=
  List.map_fst_zip _ _ (by rw [statuses_length])

theorem map_snd_zip_statuses (cs : List String) (s : S) :
    (cs.zip (statuses env cs s)).map Prod.snd = statuses env cs s :=
  List.map_snd_zip _ _ (by rw [statuses_length])

theorem setup_reg (w : World S V) : (setup_ovs_bridges_if_need env w).2.reg = w.reg := by
  by_cases h : (env.execute_system_command "/usr/bin/ovs-vsctl br-exists br-int" w.sw).1.1
      = EXIT_SUCCESS
  · rw [setup_fast env w h]; exact run_all_reg env _ w
  · rw [setup_create env w h]; exact run_all_reg env _ w

theorem setup_create_drop (w : World S V)
    (h : (env.execute_system_command "/usr/bin/ovs-vsctl br-exists br-int" w.sw).1.1 ≠
        EXIT_SUCCESS) :
    (issued_since w (setup_ovs_bridges_if_need env w).2).drop 2 =
      creation_commands.zip (statuses env creation_commands (run_all env bridge_queries w).sw) := by
  rw [setup_create env w h, issued_since_run_all_append]
  exact List.drop_left' (by simp [bridge_queries, statuses])

theorem setup_create_status (w : World S V)
    (h : (env.execute_system_command "/usr/bin/ovs-vsctl br-exists br-int" w.sw).1.1 ≠
        EXIT_SUCCESS) :
    (setup_ovs_bridges_if_need env w).1 = last_failure EXIT_SUCCESS
      (((issued_since w (setup_ovs_bridges_if_need env w).2).drop 2).map Prod.snd) := by
  rw [setup_create_drop env w h, map_snd_zip_statuses, setup_create env w h]

theorem setup_create_status_iff (w : World S V)
    (h : (env.execute_system_command "/usr/bin/ovs-vsctl br-exists br-int" w.sw).1.1 ≠
        EXIT_SUCCESS) :
    (setup_ovs_bridges_if_need env w).1 = EXIT_SUCCESS ↔
      ∀ e ∈ (issued_since w (setup_ovs_bridges_if_need env w).2).drop 2, e.2 = EXIT_SUCCESS := by
  rw [setup_create_status env w h, last_failure_eq_zero]
  simp only [List.mem_map, forall_exists_index, and_imp, Prod.forall, Prod.exists]
  constructor
  · intro hall a b hab; exact hall b a b hab rfl
  · intro hall rc a b hab hb; subst hb; exact hall a b hab

end generic

section generic
variable {S V N : Type} (env : Env S V N)

theorem issued_since_setup_fast (w : World S V)
    (h : (env.execute_system_command "/usr/bin/ovs-vsctl br-exists br-int" w.sw).1.1 =
        EXIT_SUCCESS) :
    issued_since w (setup_ovs_bridges_if_need env w).2 =
      [("/usr/bin/ovs-vsctl br-exists br-int", EXIT_SUCCESS),
       ("/usr/bin/ovs-vsctl br-exists br-tun",
        (env.execute_system_command "/usr/bin/ovs-vsctl br-exists br-tun"
          (env.execute_system_command "/usr/bin/ovs-vsctl br-exists br-int" w.sw).2).1.1)] := by
  rw [setup_fast env w h, issued_since_run_all]
  simp only [bridge_queries, statuses, List.zip_cons_cons, List.zip_nil_right, h]

theorem issued_since_setup_create (w : World S V)
    (h : (env.execute_system_command "/usr/bin/ovs-vsctl br-exists br-int" w.sw).1.1 ≠
        EXIT_SUCCESS) :
    issued_since w (setup_ovs_bridges_if_need env w).2 =
      [("/usr/bin/ovs-vsctl br-exists br-int",
        (env.execute_system_command "/usr/bin/ovs-vsctl br-exists br-int" w.sw).1.1),
       ("/usr/bin/ovs-vsctl br-exists br-tun",
        (env.execute_system_command "/usr/bin/ovs-vsctl br-exists br-tun"
          (env.execute_system_command "/usr/bin/ovs-vsctl br-exists br-int" w.sw).2).1.1)] ++
      creation_commands.zip (statuses env creation_commands (run_all env bridge_queries w).sw) := by
  rw [setup_create env w h, issued_since_run_all_append]
  simp only [bridge_queries, statuses, List.zip_cons_cons, List.zip_nil_right]

end generic

section generic
variable {S V N : Type} (env : Env S V N)

theorem isEmpty_eq_false {s : String} (h : s ≠ "") : s.isEmpty = false := by
  cases hs : s.isEmpty
  · rfl
  · exact absurd ((String.isEmpty_iff s).mp hs) h

theorem timed_eq_issue (c : String) (f : Frame S V) :
    (if (execute_system_command_timed env c f).1 ≠ EXIT_SUCCESS then
        { (execute_system_command_timed env c f).2 with
          overall_rc := (execute_system_command_timed env c f).1 }
      else (execute_system_command_timed env c f).2) = issue env c f := by
  unfold execute_system_command_timed issue
  split <;> rfl

theorem issued_since_run_all_of_trace (cs : List String) (w0 w : World S V)
    (h : w.trace = w0.trace) :
    issued_since w0 (run_all env cs w) = cs.zip (statuses env cs w.sw) := by
  simp [issued_since, run_all_trace, h]

/-- The port commands after the registry step, as one `issue_all`. -/
theorem configure_port_eq (vpc_id port_name virtual_ip : String) (tunnel_id t : Nat)
    (w : World S V) (hv : vpc_id ≠ "") (hp : port_name ≠ "") (hi : virtual_ip ≠ "")
    (ht : tunnel_id ≠ 0) (hboot : (setup_ovs_bridges_if_need env w).1 = EXIT_SUCCESS) :
    configure_port env vpc_id port_name virtual_ip tunnel_id t w =
      let f := issue_all env
        ((if env.g_demo_mode then
            local_apply_commands port_name virtual_ip (env.get_or_create_vlan_id vpc_id w.reg).1
          else []) ++ [table4_command tunnel_id (env.get_or_create_vlan_id vpc_id w.reg).1])
        { culminative_time := t, overall_rc := EXIT_SUCCESS,
          w := { (setup_ovs_bridges_if_need env w).2 with
                 reg := env.add_ovs_port vpc_id port_name
                   (env.get_or_create_vlan_id vpc_id w.reg).2 } }
      (.ok f.overall_rc, f.culminative_time, f.w) := by
  unfold configure_port
  simp only [isEmpty_eq_false hv, isEmpty_eq_false hp, isEmpty_eq_false hi, ht, hboot,
    Bool.false_eq_true, if_false, ne_eq, not_true_eq_false, setup_reg]
  cases hd : env.g_demo_mode
  · simp only [Bool.false_eq_true, if_false, List.nil_append, issue_all]
    rfl
  · simp only [if_true, timed_eq_issue, execute_ovsdb_command_eq, execute_openflow_command_eq]
    rfl

end generic

section generic
variable {S V N : Type} (env : Env S V N)

/-- A valid neighbor admission after a successful bootstrap, with the command
texts named: the endpoint-port command, the registry steps, then either the
not-found exception or the two flow commands. -/
theorem neighbor_eq (vpc_id : String) (nt : N) (remote_ip : String) (tunnel_id t : Nat)
    (w : World S V) (hv : vpc_id ≠ "") (hi : remote_ip ≠ "")
    (ht : tunnel_id ≠ 0) (hboot : (setup_ovs_bridges_if_need env w).1 = EXIT_SUCCESS) :
    create_update_neighbor_port env vpc_id nt remote_ip tunnel_id t w =
      let name := env.aca_get_outport_name nt remote_ip
      let f1 := issue env
        (endpoint_port_command name (env.aca_get_network_type_string nt) remote_ip)
        { culminative_time := t, overall_rc := EXIT_SUCCESS,
          w := (setup_ovs_bridges_if_need env w).2 }
      let got := env.get_outports vpc_id
        (env.add_outport vpc_id name (env.get_or_create_vlan_id vpc_id w.reg).2)
      if got.1.1 ≠ EXIT_SUCCESS then
        (.error (.runtime_error "vpc_id entry not find in vpc_table"), f1.culminative_time,
          { f1.w with reg := got.2 })
      else
        let f := issue_all env
          [table22_command (env.get_or_create_vlan_id vpc_id w.reg).1 tunnel_id got.1.2,
           table0_steering_command name]
          { f1 with overall_rc := got.1.1, w := { f1.w with reg := got.2 } }
        (.ok f.overall_rc, f.culminative_time, f.w) := by
  unfold create_update_neighbor_port
  simp only [isEmpty_eq_false hv, isEmpty_eq_false hi, ht, hboot,
    Bool.false_eq_true, if_false, ne_eq, not_true_eq_false, execute_ovsdb_command_eq,
    execute_openflow_command_eq]
  have hreg : (issue env ("/usr/bin/ovs-vsctl " ++
      ("--may-exist add-port br-tun " ++ env.aca_get_outport_name nt remote_ip ++
        " -- set interface " ++ env.aca_get_outport_name nt remote_ip ++ " type=" ++
        env.aca_get_network_type_string nt ++
        " options:df_default=true options:egress_pkt_mark=0 options:in_key=flow options:out_key=flow options:remote_ip=" ++
        remote_ip))
      { culminative_time := t, overall_rc := EXIT_SUCCESS,
        w := (setup_ovs_bridges_if_need env w).2 }).w.reg = w.reg := by
    show (setup_ovs_bridges_if_need env w).2.reg = w.reg
    exact setup_reg env w
  rw [hreg]
  have hcmd : ("/usr/bin/ovs-vsctl " ++
      ("--may-exist add-port br-tun " ++ env.aca_get_outport_name nt remote_ip ++
        " -- set interface " ++ env.aca_get_outport_name nt remote_ip ++ " type=" ++
        env.aca_get_network_type_string nt ++
        " options:df_default=true options:egress_pkt_mark=0 options:in_key=flow options:out_key=flow options:remote_ip=" ++
        remote_ip)) = endpoint_port_command (env.aca_get_outport_name nt remote_ip)
          (env.aca_get_network_type_string nt) remote_ip := by
    simp only [endpoint_port_command, String.append_assoc]
    rfl
  rw [hcmd]
  have h22 : ∀ (tag : Int) (outs : String), ("/usr/bin/ovs-ofctl " ++
      ("add-flow br-tun \"table=22, priority=1,dl_vlan=" ++ toString tag ++
        " actions=strip_vlan,load:" ++ toString tunnel_id ++ "->NXM_NX_TUN_ID[],output:\"" ++
        outs ++ "\"\"")) = table22_command tag tunnel_id outs := by
    intro tag outs
    simp only [table22_command, String.append_assoc]
    rfl
  have h0 : ∀ (name : String), ("/usr/bin/ovs-ofctl " ++
      ("add-flow br-tun \"table=0, priority=1,in_port=\"" ++ name ++
        "\" actions=resubmit(,4)\"")) = table0_steering_command name := by
    intro name
    simp only [table0_steering_command, String.append_assoc]
    rfl
  simp only [h22, h0]
  rfl

end generic

/-! ## Texts -/

theorem strip_lit_append (p r : List Char) : strip_lit p (p ++ r) = some r := by
  induction p with
  | nil => cases r <;> rfl
  | cons a p ih => simp [strip_lit, ih]

theorem strip_lit_mismatch (p q r : List Char) (h : mismatch p q = true) :
    strip_lit p (q ++ r) = none := by
  induction p generalizing q with
  | nil => cases q <;> simp [mismatch] at h
  | cons a p ih =>
    cases q with
    | nil => simp [mismatch] at h
    | cons b q =>
      simp only [mismatch, Bool.or_eq_true, bne_iff_ne, ne_eq] at h
      simp only [List.cons_append, strip_lit]
      by_cases hab : a = b
      · rw [if_pos hab]
        exact ih q (by rcases h with h | h; exact absurd hab h; exact h)
      · rw [if_neg hab]

theorem mismatch_append_ne (p q r₁ r₂ : List Char) (h : mismatch p q = true) :
    p ++ r₁ ≠ q ++ r₂ := by
  induction p generalizing q with
  | nil => cases q <;> simp [mismatch] at h
  | cons a p ih =>
    cases q with
    | nil => simp [mismatch] at h
    | cons b q =>
      simp only [mismatch, Bool.or_eq_true, bne_iff_ne, ne_eq] at h
      intro heq
      simp only [List.cons_append, List.cons.injEq] at heq
      rcases h with h | h
      · exact h heq.1
      · exact ih q h heq.2

theorem actions_pattern : " actions=".data = [' ', 'a', 'c', 't', 'i', 'o', 'n', 's', '='] := rfl

theorem split_actions_cons (c : Char) (s : List Char)
    (h : strip_lit " actions=".data (c :: s) = none) :
    split_actions (c :: s) = (split_actions s).map fun p => (c :: p.1, p.2) := by
  rw [split_actions, h]

theorem split_actions_skip (l s : List Char) (h : skippable l = true) :
    split_actions (l ++ s) = (split_actions s).map fun p => (l ++ p.1, p.2) := by
  induction l with
  | nil => simp
  | cons c rest ih =>
    simp only [skippable, Bool.and_eq_true, Bool.or_eq_true, bne_iff_ne, ne_eq] at h
    have hnone : strip_lit " actions=".data (c :: (rest ++ s)) = none := by
      rw [actions_pattern]
      rcases h.1 with hc | hx
      · simp only [strip_lit]
        rw [if_neg (fun e => hc e.symm)]
      · cases rest with
        | nil => simp at hx
        | cons x rest' =>
          simp only [bne_iff_ne, ne_eq] at hx
          simp only [List.cons_append, strip_lit]
          by_cases hc : ' ' = c
          · rw [if_pos hc, if_neg (fun e => hx e.symm)]
          · rw [if_neg hc]
    rw [List.cons_append, split_actions_cons c _ hnone, ih h.2]
    cases split_actions s <;> simp

theorem split_actions_here (a : List Char) :
    split_actions (" actions=".data ++ a) = some ([], a) := by
  have h := strip_lit_append " actions=".data a
  rw [actions_pattern] at h ⊢
  simp only [List.cons_append, List.nil_append] at h ⊢
  rw [split_actions, h]

theorem split_actions_clean (k a : List Char) (h : skippable k = true) :
    split_actions (k ++ (" actions=".data ++ a)) = some (k, a) := by
  rw [split_actions_skip k _ h, split_actions_here]
  simp

/-! ### Decimal texts -/

theorem digitChar_ne_space : ∀ k : Nat, k < 10 → Nat.digitChar k ≠ ' ' := by
  decide

theorem toDigitsCore_no_space (fuel n : Nat) (acc : List Char) (hacc : ∀ c ∈ acc, c ≠ ' ') :
    ∀ c ∈ Nat.toDigitsCore 10 fuel n acc, c ≠ ' ' := by
  induction fuel generalizing n acc with
  | zero => simpa [Nat.toDigitsCore] using hacc
  | succ fuel ih =>
    have hacc' : ∀ c ∈ Nat.digitChar (n % 10) :: acc, c ≠ ' ' := by
      intro c hc
      rcases List.mem_cons.mp hc with hc | hc
      · rw [hc]; exact digitChar_ne_space _ (Nat.mod_lt _ (by decide))
      · exact hacc c hc
    simp only [Nat.toDigitsCore]
    split
    · exact hacc'
    · exact ih _ _ hacc'

theorem toString_nat_no_space (n : Nat) : ∀ c ∈ (toString n).data, c ≠ ' ' := by
  show ∀ c ∈ (Nat.repr n).data, c ≠ ' '
  unfold Nat.repr Nat.toDigits
  exact toDigitsCore_no_space _ _ [] (by simp)

theorem toString_int_no_space (i : Int) : ∀ c ∈ (toString i).data, c ≠ ' ' := by
  cases i with
  | ofNat n => exact toString_nat_no_space n
  | negSucc n =>
    show ∀ c ∈ ("-" ++ Nat.repr (n + 1)).data, c ≠ ' '
    intro c hc
    rw [String.data_append] at hc
    rcases List.mem_append.mp hc with hc | hc
    · have : c = '-' := by simpa using hc
      rw [this]; decide
    · exact toString_nat_no_space (n + 1) c hc

theorem skippable_of_no_space (l : List Char) (h : ∀ c ∈ l, c ≠ ' ') : skippable l = true := by
  induction l with
  | nil => rfl
  | cons c rest ih =>
    simp only [skippable, Bool.and_eq_true, Bool.or_eq_true, bne_iff_ne, ne_eq]
    exact ⟨Or.inl (h c (List.mem_cons_self _ _)), ih (fun x hx => h x (List.mem_cons_of_mem _ hx))⟩

theorem skippable_append (l d : List Char) (hl : skippable l = true) (hd : ∀ c ∈ d, c ≠ ' ') :
    skippable (l ++ d) = true := by
  induction l with
  | nil => exact skippable_of_no_space d hd
  | cons c rest ih =>
    simp only [skippable, Bool.and_eq_true, Bool.or_eq_true, bne_iff_ne, ne_eq] at hl
    simp only [List.cons_append, skippable, Bool.and_eq_true, Bool.or_eq_true, bne_iff_ne, ne_eq]
    refine ⟨?_, ih hl.2⟩
    rcases hl.1 with hc | hx
    · exact Or.inl hc
    · cases rest with
      | nil => simp at hx
      | cons x rest' => exact Or.inr (by simpa using hx)

theorem digitChar_value : ∀ k : Nat, k < 10 → (Nat.digitChar k).toNat - 48 = k := by
  decide

theorem toDigitsCore_append (fuel n : Nat) (acc : List Char) :
    Nat.toDigitsCore 10 fuel n acc = Nat.toDigitsCore 10 fuel n [] ++ acc := by
  induction fuel generalizing n acc with
  | zero => simp [Nat.toDigitsCore]
  | succ fuel ih =>
    simp only [Nat.toDigitsCore]
    split
    · simp
    · rw [ih _ (_ :: acc), ih _ [_]]
      simp

theorem decimal_value_concat (l : List Char) (c : Char) :
    decimal_value (l ++ [c]) = 10 * decimal_value l + (c.toNat - 48) := by
  simp [decimal_value, List.foldl_append]

theorem decimal_value_toDigitsCore (fuel n : Nat) (h : n < fuel) :
    decimal_value (Nat.toDigitsCore 10 fuel n []) = n := by
  induction fuel generalizing n with
  | zero => omega
  | succ fuel ih =>
    simp only [Nat.toDigitsCore]
    split
    · rename_i h0
      have hlt : n < 10 := by omega
      have := digitChar_value (n % 10) (Nat.mod_lt _ (by decide))
      simp only [decimal_value, List.foldl_cons, List.foldl_nil]
      omega
    · rename_i h0
      rw [toDigitsCore_append, decimal_value_concat, ih (n / 10) (by omega),
        digitChar_value (n % 10) (Nat.mod_lt _ (by decide))]
      omega

theorem decimal_value_toString (n : Nat) : decimal_value (toString n).data = n := by
  show decimal_value (Nat.repr n).data = n
  unfold Nat.repr Nat.toDigits
  exact decimal_value_toDigitsCore _ _ (Nat.lt_succ_self n)

theorem toString_nat_inj {a b : Nat} (h : toString a = toString b) : a = b := by
  rw [← decimal_value_toString a, ← decimal_value_toString b, h]

/-! ## The model switch -/

theorem flow_prefix_data (r : flow_rule) :
    (add_flow_command r).data = "/usr/bin/ovs-ofctl add-flow br-tun \"".data ++
      (r.key.data ++ (" actions=".data ++ (r.actions.data ++ ['"']))) := by
  simp only [add_flow_command, String.data_append, List.append_assoc]

theorem ovs_execute_flow (cmd : String) (body : List Char) (s : ovs_switch)
    (h : cmd.data = "/usr/bin/ovs-ofctl add-flow br-tun \"".data ++ body) :
    ovs_execute cmd s =
      match split_actions body with
      | some (k, a) =>
        if a.getLast? = some '"' then
          ((EXIT_SUCCESS, 1),
            { s with br_tun_flows :=
                add_flow s.br_tun_flows ⟨String.mk k, String.mk a.dropLast⟩ })
        else ((EXIT_SUCCESS, 1), s)
      | none => ((EXIT_SUCCESS, 1), s) := by
  have h1 : strip_lit "/usr/bin/ovs-vsctl br-exists ".data cmd.data = none := by
    rw [h]; exact strip_lit_mismatch _ _ _ (by decide)
  have h2 : strip_lit "/usr/bin/ovs-vsctl add-br ".data cmd.data = none := by
    rw [h]; exact strip_lit_mismatch _ _ _ (by decide)
  have h3 : strip_lit "/usr/bin/ovs-ofctl add-flow br-tun \"".data cmd.data = some body := by
    rw [h]; exact strip_lit_append _ _
  have h4 : strip_lit "/usr/bin/ovs-vsctl --may-exist add-port br-tun ".data cmd.data = none := by
    rw [h]; exact strip_lit_mismatch _ _ _ (by decide)
  unfold ovs_execute parse_add_flow
  simp only [h1, h2, h3, h4]
  cases hsp : split_actions body with
  | none => rfl
  | some p =>
    obtain ⟨k, a⟩ := p
    by_cases hq : a.getLast? = some '"'
    · simp only [hq, if_true]
    · simp only [hq, if_false]

theorem ovs_execute_add_flow (r : flow_rule) (s : ovs_switch) (h : skippable r.key.data = true) :
    ovs_execute (add_flow_command r) s =
      ((EXIT_SUCCESS, 1), { s with br_tun_flows := add_flow s.br_tun_flows r }) := by
  rw [ovs_execute_flow _ _ s (flow_prefix_data r), split_actions_clean _ _ h]
  simp

theorem ovs_execute_other (cmd : String) (lit rest : List Char) (s : ovs_switch)
    (h : cmd.data = lit ++ rest)
    (h1 : mismatch "/usr/bin/ovs-vsctl br-exists ".data lit = true)
    (h2 : mismatch "/usr/bin/ovs-vsctl add-br ".data lit = true)
    (h3 : mismatch "/usr/bin/ovs-ofctl add-flow br-tun \"".data lit = true)
    (h4 : mismatch "/usr/bin/ovs-vsctl --may-exist add-port br-tun ".data lit = true) :
    ovs_execute cmd s = ((EXIT_SUCCESS, 1), s) := by
  unfold ovs_execute parse_add_flow
  rw [h, strip_lit_mismatch _ _ _ h1, strip_lit_mismatch _ _ _ h2, strip_lit_mismatch _ _ _ h3,
    strip_lit_mismatch _ _ _ h4]

theorem ovs_execute_br_exists (b : String) (s : ovs_switch) :
    ovs_execute ("/usr/bin/ovs-vsctl br-exists " ++ b) s =
      ((if b ∈ s.bridges then EXIT_SUCCESS else 2, 1), s) := by
  unfold ovs_execute
  rw [String.data_append, strip_lit_append]

theorem ovs_execute_add_br (b : String) (s : ovs_switch) :
    ovs_execute ("/usr/bin/ovs-vsctl add-br " ++ b) s =
      if b ∈ s.bridges then ((EXIT_FAILURE, 1), s)
      else ((EXIT_SUCCESS, 1), { s with bridges := s.bridges ++ [b] }) := by
  unfold ovs_execute
  rw [String.data_append, strip_lit_mismatch _ _ _ (by decide), strip_lit_append]

theorem run_all_sw {S V N : Type} (env : Env S V N) (cs : List String) (w : World S V) :
    (run_all env cs w).sw = sw_after env cs w.sw := by
  induction cs generalizing w with
  | nil => rfl
  | cons c cs ih => simp [run_all, sw_after, ih]

theorem table4_command_eq (tunnel_id : Nat) (tag : Int) :
    table4_command tunnel_id tag = add_flow_command (table4_rule tunnel_id tag) := by
  simp only [table4_command, add_flow_command, table4_rule, String.append_assoc]
  rfl

theorem table22_command_eq (tag : Int) (tunnel_id : Nat) (outs : String) :
    table22_command tag tunnel_id outs = add_flow_command (table22_rule tag tunnel_id outs) := by
  simp only [table22_command, add_flow_command, table22_rule, String.append_assoc]
  rfl

theorem table4_key_skippable (tunnel_id : Nat) (tag : Int) :
    skippable (table4_rule tunnel_id tag).key.data = true := by
  simp only [table4_rule, String.data_append]
  exact skippable_append _ _ (by decide) (toString_nat_no_space tunnel_id)

theorem table22_key_skippable (tag : Int) (tunnel_id : Nat) (outs : String) :
    skippable (table22_rule tag tunnel_id outs).key.data = true := by
  simp only [table22_rule, String.data_append]
  exact skippable_append _ _ (by decide) (toString_int_no_space tag)

theorem ovs_execute_table4 (tunnel_id : Nat) (tag : Int) (s : ovs_switch) :
    ovs_execute (table4_command tunnel_id tag) s =
      ((EXIT_SUCCESS, 1),
        { s with br_tun_flows := add_flow s.br_tun_flows (table4_rule tunnel_id tag) }) := by
  rw [table4_command_eq]
  exact ovs_execute_add_flow _ s (table4_key_skippable tunnel_id tag)

theorem ovs_execute_table22 (tag : Int) (tunnel_id : Nat) (outs : String) (s : ovs_switch) :
    ovs_execute (table22_command tag tunnel_id outs) s =
      ((EXIT_SUCCESS, 1),
        { s with br_tun_flows := add_flow s.br_tun_flows (table22_rule tag tunnel_id outs) }) := by
  rw [table22_command_eq]
  exact ovs_execute_add_flow _ s (table22_key_skippable tag tunnel_id outs)

theorem port_of_append_blank (l r : List Char) : port_of (l ++ ' ' :: r) = port_of l := by
  unfold port_of
  congr 1
  induction l with
  | nil => simp [List.takeWhile]
  | cons c l ih =>
    rw [List.cons_append, List.takeWhile_cons, List.takeWhile_cons, ih]

theorem ovs_execute_endpoint_port (name ty ip : String) (s : ovs_switch) :
    ovs_execute (endpoint_port_command name ty ip) s =
      ((EXIT_SUCCESS, 1),
        { s with br_tun_ports := with_outport s.br_tun_ports (created_port name) }) := by
  have hd : (endpoint_port_command name ty ip).data =
      "/usr/bin/ovs-vsctl --may-exist add-port br-tun ".data ++
        (name.data ++ ' ' :: ("-- set interface ".data ++ (name.data ++ (" type=".data ++
          (ty.data ++
            (" options:df_default=true options:egress_pkt_mark=0 options:in_key=flow options:out_key=flow options:remote_ip=".data
              ++ ip.data)))))) := by
    simp only [endpoint_port_command, String.data_append, List.append_assoc]
    rfl
  unfold ovs_execute
  rw [hd, strip_lit_mismatch _ _ _ (by decide), strip_lit_mismatch _ _ _ (by decide),
    strip_lit_append]
  simp only [port_of_append_blank, created_port]

theorem ovs_execute_local_apply (port_name virtual_ip : String) (tag : Int) (s : ovs_switch) :
    ∀ c ∈ local_apply_commands port_name virtual_ip tag,
      ovs_execute c s = ((EXIT_SUCCESS, 1), s) := by
  intro c hc
  simp only [local_apply_commands, List.mem_cons, List.mem_singleton, List.not_mem_nil,
    or_false] at hc
  rcases hc with hc | hc | hc
  · subst hc
    apply ovs_execute_other _ "/usr/bin/ovs-vsctl add-port br-int ".data
      (port_name.data ++ (" tag=".data ++ ((toString tag).data ++ (" -- set Interface ".data ++
        (port_name.data ++ " type=internal".data)))))
    · simp only [String.data_append, List.append_assoc]
    · decide
    · decide
    · decide
    · decide
  · subst hc
    apply ovs_execute_other _ "ip addr add ".data
      (virtual_ip.data ++ (" dev ".data ++ port_name.data))
    · simp only [String.data_append, List.append_assoc]
    · decide
    · decide
    · decide
    · decide
  · subst hc
    apply ovs_execute_other _ "ip link set ".data (port_name.data ++ " up".data)
    · simp only [String.data_append, List.append_assoc]
    · decide
    · decide
    · decide
    · decide

/-- The steering rule of an endpoint as the switch reads it. -/
theorem ovs_execute_steering (name : String) (s : ovs_switch) :
    (ovs_execute (table0_steering_command name) s).1 = (EXIT_SUCCESS, 1)
    ∧ (ovs_execute (table0_steering_command name) s).2.bridges = s.bridges
    ∧ ((ovs_execute (table0_steering_command name) s).2.br_tun_flows = s.br_tun_flows
       ∨ ∃ r : flow_rule, (∃ k, r.key.data = "table=0, priority=1,in_port=\"".data ++ k)
          ∧ (ovs_execute (table0_steering_command name) s).2.br_tun_flows
              = add_flow s.br_tun_flows r) := by
  have hd : (table0_steering_command name).data = "/usr/bin/ovs-ofctl add-flow br-tun \"".data ++
      ("table=0, priority=1,in_port=\"".data ++ (name.data ++
          "\" actions=resubmit(,4)\"".data)) := by
    simp only [table0_steering_command, String.data_append, List.append_assoc]
    rfl
  rw [ovs_execute_flow _ _ s hd, split_actions_skip _ _ (by decide)]
  cases split_actions (name.data ++ "\" actions=resubmit(,4)\"".data) with
  | none => exact ⟨rfl, rfl, Or.inl rfl⟩
  | some p =>
    obtain ⟨k, a⟩ := p
    simp only [Option.map_some']
    by_cases hq : a.getLast? = some '"'
    · rw [if_pos hq]
      exact ⟨rfl, rfl, Or.inr ⟨_, ⟨k, rfl⟩, rfl⟩⟩
    · rw [if_neg hq]
      exact ⟨rfl, rfl, Or.inl rfl⟩

theorem model_exec {N : Type} (render : List String → String)
    (nm : N → String → String) (ty : N → String) (demo : Bool) :
    (model_env render nm ty demo).execute_system_command = ovs_execute := rfl

theorem ovs_query_int (s : ovs_switch) :
    ovs_execute "/usr/bin/ovs-vsctl br-exists br-int" s =
      ((if "br-int" ∈ s.bridges then EXIT_SUCCESS else 2, 1), s) :=
  ovs_execute_br_exists "br-int" s

theorem ovs_query_tun (s : ovs_switch) :
    ovs_execute "/usr/bin/ovs-vsctl br-exists br-tun" s =
      ((if "br-tun" ∈ s.bridges then EXIT_SUCCESS else 2, 1), s) :=
  ovs_execute_br_exists "br-tun" s

theorem ovs_add_int (s : ovs_switch) :
    ovs_execute "/usr/bin/ovs-vsctl add-br br-int" s =
      if "br-int" ∈ s.bridges then ((EXIT_FAILURE, 1), s)
      else ((EXIT_SUCCESS, 1), { s with bridges := s.bridges ++ ["br-int"] }) :=
  ovs_execute_add_br "br-int" s

theorem ovs_add_tun (s : ovs_switch) :
    ovs_execute "/usr/bin/ovs-vsctl add-br br-tun" s =
      if "br-tun" ∈ s.bridges then ((EXIT_FAILURE, 1), s)
      else ((EXIT_SUCCESS, 1), { s with bridges := s.bridges ++ ["br-tun"] }) :=
  ovs_execute_add_br "br-tun" s

theorem ovs_patch_commands (s : ovs_switch) :
    ovs_execute "/usr/bin/ovs-vsctl add-port br-int patch-tun" s = ((EXIT_SUCCESS, 1), s)
    ∧ ovs_execute "/usr/bin/ovs-vsctl set interface patch-tun type=patch" s
        = ((EXIT_SUCCESS, 1), s)
    ∧ ovs_execute "/usr/bin/ovs-vsctl set interface patch-tun options:peer=patch-int" s
        = ((EXIT_SUCCESS, 1), s)
    ∧ ovs_execute "/usr/bin/ovs-vsctl add-port br-tun patch-int" s = ((EXIT_SUCCESS, 1), s)
    ∧ ovs_execute "/usr/bin/ovs-vsctl set interface patch-int type=patch" s
        = ((EXIT_SUCCESS, 1), s)
    ∧ ovs_execute "/usr/bin/ovs-vsctl set interface patch-int options:peer=patch-tun" s
        = ((EXIT_SUCCESS, 1), s) :=
  ⟨rfl, rfl, rfl, rfl, rfl, rfl⟩

theorem ovs_baseline_0 (s : ovs_switch) :
    ovs_execute
      "/usr/bin/ovs-ofctl add-flow br-tun \"table=0, priority=1,in_port=\"patch-int\" actions=resubmit(,2)\""
      s = ((EXIT_SUCCESS, 1),
        { s with br_tun_flows := add_flow s.br_tun_flows baseline_table0_rule }) := rfl

theorem ovs_baseline_2 (s : ovs_switch) :
    ovs_execute "/usr/bin/ovs-ofctl add-flow br-tun \"table=2, priority=0 actions=resubmit(,22)\""
      s = ((EXIT_SUCCESS, 1),
        { s with br_tun_flows := add_flow s.br_tun_flows baseline_table2_rule }) := rfl

/-- On the model switch a bootstrap that finds br-int succeeds and leaves the
switch as it was. -/
theorem model_setup_present {N : Type} (render : List String → String)
    (nm : N → String → String) (ty : N → String) (demo : Bool) (w : World ovs_switch vpc_table)
    (h : "br-int" ∈ w.sw.bridges) :
    (setup_ovs_bridges_if_need (model_env render nm ty demo) w).1 = EXIT_SUCCESS
    ∧ (setup_ovs_bridges_if_need (model_env render nm ty demo) w).2.sw = w.sw := by
  have hq : ((model_env render nm ty demo).execute_system_command
      "/usr/bin/ovs-vsctl br-exists br-int"
      w.sw).1.1 = EXIT_SUCCESS := by
    rw [model_exec, ovs_query_int, if_pos h]
  rw [setup_fast _ w hq, run_all_sw]
  simp only [bridge_queries, sw_after, model_exec, ovs_query_int, ovs_query_tun, and_self]

theorem model_setup_absent {N : Type} (render : List String → String)
    (nm : N → String → String) (ty : N → String) (demo : Bool) (w : World ovs_switch vpc_table)
    (h : "br-int" ∉ w.sw.bridges) :
    (setup_ovs_bridges_if_need (model_env render nm ty demo) w).1 =
        (if "br-tun" ∈ w.sw.bridges then EXIT_FAILURE else EXIT_SUCCESS)
    ∧ ("br-tun" ∉ w.sw.bridges →
        (setup_ovs_bridges_if_need (model_env render nm ty demo) w).2.sw =
          { bridges := w.sw.bridges ++ ["br-int", "br-tun"]
            br_tun_ports := w.sw.br_tun_ports
            br_tun_flows :=
              add_flow (add_flow w.sw.br_tun_flows baseline_table0_rule) baseline_table2_rule })
    := by
  have hq : ((model_env render nm ty demo).execute_system_command
      "/usr/bin/ovs-vsctl br-exists br-int"
      w.sw).1.1 ≠ EXIT_SUCCESS := by
    rw [model_exec, ovs_query_int, if_neg h]
    show (2 : Int) ≠ 0
    decide
  have hmem : "br-tun" ∈ w.sw.bridges ++ ["br-int"] ↔ "br-tun" ∈ w.sw.bridges := by
    simp
  rw [setup_create _ w hq, run_all_sw, run_all_sw]
  by_cases ht : "br-tun" ∈ w.sw.bridges
  · simp [bridge_queries, creation_commands, sw_after, statuses, model_exec, ovs_query_int,
      ovs_query_tun, ovs_add_int, ovs_add_tun, ovs_patch_commands, ovs_baseline_0, ovs_baseline_2,
      h, ht, last_failure]
  · simp [bridge_queries, creation_commands, sw_after, statuses, model_exec, ovs_query_int,
      ovs_query_tun, ovs_add_int, ovs_add_tun, ovs_patch_commands, ovs_baseline_0, ovs_baseline_2,
      h, ht, last_failure]

/-! ## Flow tables -/

theorem filter_add_flow_other (P : String → Bool) (t : List flow_rule) (r : flow_rule)
    (h : P r.key = false) :
    (add_flow t r).filter (fun x => P x.key) = t.filter (fun x => P x.key) := by
  simp only [add_flow, List.filter_append, List.filter_filter, List.filter_cons, List.filter_nil,
    h, Bool.false_eq_true, if_false, List.append_nil]
  apply List.filter_congr
  intro x _
  by_cases hx : P x.key = true
  · have : x.key ≠ r.key := fun e => by rw [e, h] at hx; exact Bool.noConfusion hx
    simp [hx, this]
  · simp [hx]

theorem filter_add_flow_same (P : String → Bool) (t : List flow_rule) (r : flow_rule)
    (h : P r.key = true) :
    (add_flow t r).filter (fun x => P x.key) =
      (t.filter (fun x => P x.key)).filter (fun x => x.key ≠ r.key) ++ [r] := by
  simp only [add_flow, List.filter_append, List.filter_filter, List.filter_cons, List.filter_nil,
    h, if_true]
  congr 1
  apply List.filter_congr
  intro x _
  exact Bool.and_comm _ _

theorem filter_key_add_flow (t : List flow_rule) (r : flow_rule) :
    (add_flow t r).filter (fun x => x.key = r.key) = [r] := by
  have h := filter_add_flow_same (fun k => decide (k = r.key)) t r (by simp)
  simp only [List.filter_filter] at h
  rw [h]
  have : t.filter (fun x => (decide (x.key ≠ r.key) && decide (x.key = r.key))) = [] := by
    apply List.filter_eq_nil_iff.mpr
    intro x _
    by_cases hx : x.key = r.key <;> simp [hx]
  rw [this]
  rfl

/-- Two filters of a list may be applied in either order. -/
theorem filter_filter_comm {α : Type} (p q : α → Bool) (l : List α) :
    (l.filter p).filter q = (l.filter q).filter p := by
  rw [List.filter_filter, List.filter_filter]
  apply List.filter_congr
  intro x _
  exact Bool.and_comm _ _

theorem rules_with_add_flow_other (p : String) (t : List flow_rule) (r : flow_rule)
    (h : p.data.isPrefixOf r.key.data = false) :
    rules_with p (add_flow t r) = rules_with p t :=
  filter_add_flow_other (fun k => p.data.isPrefixOf k.data) t r h

theorem rules_with_add_flow_same (p : String) (t : List flow_rule) (r : flow_rule)
    (h : p.data.isPrefixOf r.key.data = true) :
    rules_with p (add_flow t r) = (rules_with p t).filter (fun x => x.key ≠ r.key) ++ [r] :=
  filter_add_flow_same (fun k => p.data.isPrefixOf k.data) t r h

/-! ## The model registry -/

theorem find_vpc_append (t : vpc_table) (k vpc_id : String) (e : vpc_table_entry) :
    find_vpc (t ++ [(k, e)]) vpc_id =
      match find_vpc t vpc_id with
      | some x => some x
      | none => if k = vpc_id then some e else none := by
  induction t with
  | nil => simp [find_vpc]
  | cons p t ih =>
    obtain ⟨k', e'⟩ := p
    simp only [List.cons_append, find_vpc]
    by_cases h : k' = vpc_id
    · simp [h]
    · simp [h, ih]

theorem find_vpc_update (g : vpc_table_entry → vpc_table_entry) (t : vpc_table)
    (vpc_id : String) :
    find_vpc (update_vpc g t vpc_id) vpc_id = (find_vpc t vpc_id).map g := by
  induction t with
  | nil => simp [find_vpc, update_vpc]
  | cons p t ih =>
    obtain ⟨k', e'⟩ := p
    simp only [update_vpc, find_vpc]
    by_cases h : k' = vpc_id
    · simp [h, find_vpc]
    · simp [h, find_vpc, ih]

theorem update_vpc_id (g : vpc_table_entry → vpc_table_entry) (t : vpc_table)
    (vpc_id : String) (e : vpc_table_entry) (h : find_vpc t vpc_id = some e) (hg : g e = e) :
    update_vpc g t vpc_id = t := by
  induction t with
  | nil => rfl
  | cons p t ih =>
    obtain ⟨k', e'⟩ := p
    simp only [update_vpc, find_vpc] at h ⊢
    by_cases hk : k' = vpc_id
    · simp only [hk, if_true, Option.some.injEq] at h ⊢
      rw [h, hg]
    · simp only [hk, if_false] at h ⊢
      rw [ih h]

theorem get_or_create_of_find (t : vpc_table) (vpc_id : String) (e : vpc_table_entry)
    (h : find_vpc t vpc_id = some e) :
    model_get_or_create_vlan_id vpc_id t = (e.vlan_id, t) := by
  simp [model_get_or_create_vlan_id, h]

theorem find_after_get_or_create (t : vpc_table) (vpc_id : String) :
    find_vpc (model_get_or_create_vlan_id vpc_id t).2 vpc_id =
      some { vlan_id := (model_get_or_create_vlan_id vpc_id t).1, ovs_ports :=
               (match find_vpc t vpc_id with
                | some e => e.ovs_ports
                | none => []),
             outports := outports_of t vpc_id } := by
  unfold model_get_or_create_vlan_id outports_of
  cases h : find_vpc t vpc_id with
  | some e => simp [h]
  | none => simp [find_vpc_append, h]

theorem find_after_add_ovs_port (t : vpc_table) (vpc_id port_name : String) :
    ∃ e, find_vpc (model_add_ovs_port vpc_id port_name
        (model_get_or_create_vlan_id vpc_id t).2) vpc_id = some e
      ∧ e.vlan_id = (model_get_or_create_vlan_id vpc_id t).1
      ∧ e.outports = outports_of t vpc_id := by
  unfold model_add_ovs_port
  rw [find_vpc_update, find_after_get_or_create]
  simp only [Option.map_some']
  refine ⟨_, rfl, ?_, ?_⟩ <;> split <;> rfl

theorem find_after_add_outport (t : vpc_table) (vpc_id name : String) :
    find_vpc (model_add_outport vpc_id name (model_get_or_create_vlan_id vpc_id t).2) vpc_id =
      some { vlan_id := (model_get_or_create_vlan_id vpc_id t).1,
             ovs_ports := (match find_vpc t vpc_id with
                | some e => e.ovs_ports
                | none => []),
             outports := with_outport (outports_of t vpc_id) name } := by
  unfold model_add_outport
  rw [find_vpc_update, find_after_get_or_create]
  simp only [Option.map_some']

theorem outports_after_add_outport (t : vpc_table) (vpc_id name : String) :
    outports_of (model_add_outport vpc_id name (model_get_or_create_vlan_id vpc_id t).2) vpc_id =
      with_outport (outports_of t vpc_id) name := by
  rw [outports_of, find_after_add_outport]

theorem tag_after_add_outport (t : vpc_table) (vpc_id name : String) :
    (model_get_or_create_vlan_id vpc_id
      (model_add_outport vpc_id name (model_get_or_create_vlan_id vpc_id t).2)).1 =
      (model_get_or_create_vlan_id vpc_id t).1 := by
  rw [get_or_create_of_find _ _ _ (find_after_add_outport t vpc_id name)]

theorem get_outports_after_add_outport (render : List String → String) (t : vpc_table)
    (vpc_id name : String) :
    model_get_outports render vpc_id
        (model_add_outport vpc_id name (model_get_or_create_vlan_id vpc_id t).2) =
      ((EXIT_SUCCESS, render (with_outport (outports_of t vpc_id) name)),
        model_add_outport vpc_id name (model_get_or_create_vlan_id vpc_id t).2) := by
  rw [model_get_outports, find_after_add_outport]

theorem configure_port_ok_boot {S V N : Type} (env : Env S V N)
    (vpc_id port_name virtual_ip : String) (tunnel_id t : Nat) (w : World S V) (rc : Int)
    (h : (configure_port env vpc_id port_name virtual_ip tunnel_id t w).1 = .ok rc) :
    (setup_ovs_bridges_if_need env w).1 = EXIT_SUCCESS := by
  by_contra hne
  unfold configure_port at h
  simp only [ne_eq, hne, not_false_eq_true, if_true] at h
  split at h
  · cases h
  · split at h
    · cases h
    · split at h
      · cases h
      · split at h <;> cases h

theorem neighbor_ok_boot {S V N : Type} (env : Env S V N)
    (vpc_id : String) (nt : N) (remote_ip : String) (tunnel_id t : Nat) (w : World S V) (rc : Int)
    (h : (create_update_neighbor_port env vpc_id nt remote_ip tunnel_id t w).1 = .ok rc) :
    (setup_ovs_bridges_if_need env w).1 = EXIT_SUCCESS := by
  by_contra hne
  unfold create_update_neighbor_port at h
  simp only [ne_eq, hne, not_false_eq_true, if_true] at h
  split at h
  · cases h
  · split at h
    · cases h
    · split at h <;> cases h

theorem model_demo {N : Type} (render : List String → String)
    (nm : N → String → String) (ty : N → String) (demo : Bool) :
    (model_env render nm ty demo).g_demo_mode = demo := rfl

theorem model_setup_ok {N : Type} (render : List String → String)
    (nm : N → String → String) (ty : N → String) (demo : Bool) (w : World ovs_switch vpc_table)
    (h : (setup_ovs_bridges_if_need (model_env render nm ty demo) w).1 = EXIT_SUCCESS) :
    "br-int" ∈ (setup_ovs_bridges_if_need (model_env render nm ty demo) w).2.sw.bridges
    ∧ ((setup_ovs_bridges_if_need (model_env render nm ty demo) w).2.sw.br_tun_flows =
        w.sw.br_tun_flows
       ∨ (setup_ovs_bridges_if_need (model_env render nm ty demo) w).2.sw.br_tun_flows =
          add_flow (add_flow w.sw.br_tun_flows baseline_table0_rule) baseline_table2_rule) := by
  by_cases hi : "br-int" ∈ w.sw.bridges
  · rw [(model_setup_present render nm ty demo w hi).2]
    exact ⟨hi, Or.inl rfl⟩
  · have ha := model_setup_absent render nm ty demo w hi
    by_cases ht : "br-tun" ∈ w.sw.bridges
    · rw [ha.1, if_pos ht] at h
      exact absurd h (by decide)
    · rw [ha.2 ht]
      exact ⟨by simp, Or.inr rfl⟩

theorem model_configure_port {N : Type} (render : List String → String)
    (nm : N → String → String) (ty : N → String) (demo : Bool)
    (vpc_id port_name virtual_ip : String) (tunnel_id t : Nat) (w : World ovs_switch vpc_table)
    (hv : vpc_id ≠ "") (hp : port_name ≠ "") (hi : virtual_ip ≠ "") (ht : tunnel_id ≠ 0)
    (hboot : (setup_ovs_bridges_if_need (model_env render nm ty demo) w).1 = EXIT_SUCCESS) :
    (configure_port (model_env render nm ty demo) vpc_id port_name virtual_ip tunnel_id t w).1
        = .ok EXIT_SUCCESS
    ∧ (configure_port (model_env render nm ty demo) vpc_id port_name virtual_ip tunnel_id t
        w).2.2.sw =
        { (setup_ovs_bridges_if_need (model_env render nm ty demo) w).2.sw with
          br_tun_flows := add_flow (setup_ovs_bridges_if_need (model_env render nm ty demo)
              w).2.sw.br_tun_flows
            (table4_rule tunnel_id (model_get_or_create_vlan_id vpc_id w.reg).1) }
    ∧ (configure_port (model_env render nm ty demo) vpc_id port_name virtual_ip tunnel_id t
        w).2.2.reg =
        model_add_ovs_port vpc_id port_name (model_get_or_create_vlan_id vpc_id w.reg).2 := by
  rw [configure_port_eq _ vpc_id port_name virtual_ip tunnel_id t w hv hp hi ht hboot]
  simp only [issue_all_rc, issue_all_w, run_all_sw, run_all_reg, model_demo]
  refine ⟨?_, ?_, rfl⟩
  · cases demo
    · simp [statuses, model_exec, ovs_execute_table4, last_failure]
    · have h1 := ovs_execute_local_apply port_name virtual_ip
        ((model_env render nm ty true).get_or_create_vlan_id vpc_id w.reg).1
      simp only [local_apply_commands, List.mem_cons, List.mem_singleton, List.not_mem_nil,
        or_false, forall_eq_or_imp, forall_eq] at h1
      simp [statuses, model_exec, ovs_execute_table4, last_failure, local_apply_commands, h1]
  · cases demo
    · simp [sw_after, model_exec, ovs_execute_table4]
      rfl
    · have h1 := ovs_execute_local_apply port_name virtual_ip
        ((model_env render nm ty true).get_or_create_vlan_id vpc_id w.reg).1
      simp only [local_apply_commands, List.mem_cons, List.mem_singleton, List.not_mem_nil,
        or_false, forall_eq_or_imp, forall_eq] at h1
      simp [sw_after, model_exec, ovs_execute_table4, local_apply_commands, h1]
      rfl

theorem isPrefixOf_append (p l d : List Char) (h : p.isPrefixOf l = true) :
    p.isPrefixOf (l ++ d) = true := by
  induction p generalizing l with
  | nil => simp
  | cons a p ih =>
    cases l with
    | nil => simp [List.isPrefixOf] at h
    | cons b l =>
      simp only [List.isPrefixOf, Bool.and_eq_true, beq_iff_eq] at h
      simp only [List.cons_append, List.isPrefixOf, Bool.and_eq_true, beq_iff_eq]
      exact ⟨h.1, ih l h.2⟩

theorem string_append_cancel (s a b : String) (h : s ++ a = s ++ b) : a = b := by
  have hd := congrArg String.data h
  rw [String.data_append, String.data_append] at hd
  exact String.ext (List.append_cancel_left hd)

theorem table4_key_inj (a b : Nat) (ta tb : Int)
    (h : (table4_rule a ta).key = (table4_rule b tb).key) : a = b :=
  toString_nat_inj (string_append_cancel _ _ _ h)

theorem table4_key_starts (tunnel_id : Nat) (tag : Int) :
    "table=4,".data.isPrefixOf (table4_rule tunnel_id tag).key.data = true := by
  simp only [table4_rule, String.data_append]
  exact isPrefixOf_append _ _ _ (by decide)

theorem model_reg_reuse (vpc_id port_name : String) (t : vpc_table) :
    model_get_or_create_vlan_id vpc_id
        (model_add_ovs_port vpc_id port_name (model_get_or_create_vlan_id vpc_id t).2) =
      ((model_get_or_create_vlan_id vpc_id t).1,
        model_add_ovs_port vpc_id port_name (model_get_or_create_vlan_id vpc_id t).2) := by
  obtain ⟨e, he, htag, _⟩ := find_after_add_ovs_port t vpc_id port_name
  rw [get_or_create_of_find _ _ _ he, htag]

theorem rules_with_table4_boot {N : Type} (render : List String → String)
    (nm : N → String → String) (ty : N → String) (demo : Bool) (w : World ovs_switch vpc_table)
    (h : (setup_ovs_bridges_if_need (model_env render nm ty demo) w).1 = EXIT_SUCCESS) :
    rules_with "table=4," (setup_ovs_bridges_if_need (model_env render nm ty demo)
        w).2.sw.br_tun_flows =
      rules_with "table=4," w.sw.br_tun_flows := by
  rcases (model_setup_ok render nm ty demo w h).2 with h0 | h0
  · rw [h0]
  · rw [h0, rules_with_add_flow_other _ _ _ (by decide),
      rules_with_add_flow_other _ _ _ (by decide)]

section registry
variable {S N : Type} (sink : String → S → (Int × Nat) × S) (render : List String → String)
  (nm : N → String → String) (ty : N → String) (demo : Bool)

/-- A valid neighbor admission over the model registry, after a successful
bootstrap: status, registry, executor state and trace. -/
theorem registry_neighbor (vpc_id : String) (nt : N) (remote_ip : String)
    (tunnel_id t : Nat) (w : World S vpc_table) (hv : vpc_id ≠ "") (hi : remote_ip ≠ "")
    (ht : tunnel_id ≠ 0)
    (hboot : (setup_ovs_bridges_if_need (registry_env sink render nm ty demo) w).1
      = EXIT_SUCCESS) :
    (create_update_neighbor_port (registry_env sink render nm ty demo) vpc_id nt remote_ip
        tunnel_id t w).1 =
      .ok (last_failure EXIT_SUCCESS (statuses (registry_env sink render nm ty demo)
        [table22_command (model_get_or_create_vlan_id vpc_id w.reg).1 tunnel_id
           (render (with_outport (outports_of w.reg vpc_id) (nm nt remote_ip))),
         table0_steering_command (nm nt remote_ip)]
        (sink (endpoint_port_command (nm nt remote_ip) (ty nt) remote_ip)
          (setup_ovs_bridges_if_need (registry_env sink render nm ty demo) w).2.sw).2))
    ∧ (create_update_neighbor_port (registry_env sink render nm ty demo) vpc_id nt remote_ip
        tunnel_id t w).2.2.reg =
      model_add_outport vpc_id (nm nt remote_ip) (model_get_or_create_vlan_id vpc_id w.reg).2
    ∧ (create_update_neighbor_port (registry_env sink render nm ty demo) vpc_id nt remote_ip
        tunnel_id t w).2.2.sw =
      sw_after (registry_env sink render nm ty demo)
        [endpoint_port_command (nm nt remote_ip) (ty nt) remote_ip,
         table22_command (model_get_or_create_vlan_id vpc_id w.reg).1 tunnel_id
           (render (with_outport (outports_of w.reg vpc_id) (nm nt remote_ip))),
         table0_steering_command (nm nt remote_ip)]
        (setup_ovs_bridges_if_need (registry_env sink render nm ty demo) w).2.sw
    ∧ (create_update_neighbor_port (registry_env sink render nm ty demo) vpc_id nt remote_ip
        tunnel_id t w).2.2.trace.map Prod.fst =
      (setup_ovs_bridges_if_need (registry_env sink render nm ty demo) w).2.trace.map Prod.fst ++
        [endpoint_port_command (nm nt remote_ip) (ty nt) remote_ip,
         table22_command (model_get_or_create_vlan_id vpc_id w.reg).1 tunnel_id
           (render (with_outport (outports_of w.reg vpc_id) (nm nt remote_ip))),
         table0_steering_command (nm nt remote_ip)] := by
  rw [neighbor_eq _ vpc_id nt remote_ip tunnel_id t w hv hi ht hboot]
  simp only [registry_env, get_outports_after_add_outport, ne_eq, not_true_eq_false, if_false,
    issue_all_rc, issue_all_w, run_all_reg, run_all_sw, run_all_trace]
  refine ⟨rfl, trivial, rfl, ?_⟩
  simp [issue, statuses]

end registry

theorem model_env_eq {N : Type} (render : List String → String)
    (nm : N → String → String) (ty : N → String) (demo : Bool) :
    model_env render nm ty demo = registry_env ovs_execute render nm ty demo := rfl

/-- A valid neighbor admission on the model switch after a successful
bootstrap. -/
theorem model_neighbor {N : Type} (render : List String → String)
    (nm : N → String → String) (ty : N → String) (demo : Bool) (vpc_id : String) (nt : N)
    (remote_ip : String) (tunnel_id t : Nat)
    (w : World ovs_switch vpc_table) (hv : vpc_id ≠ "") (hi : remote_ip ≠ "")
    (ht : tunnel_id ≠ 0)
    (hboot : (setup_ovs_bridges_if_need (model_env render nm ty demo) w).1 = EXIT_SUCCESS) :
    (create_update_neighbor_port (model_env render nm ty demo) vpc_id nt remote_ip tunnel_id t w).1
      = .ok EXIT_SUCCESS
    ∧ (create_update_neighbor_port (model_env render nm ty demo) vpc_id nt remote_ip tunnel_id t
        w).2.2.sw.bridges
      = (setup_ovs_bridges_if_need (model_env render nm ty demo) w).2.sw.bridges
    ∧ ∀ P : String → Bool,
        (∀ k, P (String.mk ("table=0, priority=1,in_port=\"".data ++ k)) = false) →
        (create_update_neighbor_port (model_env render nm ty demo) vpc_id nt remote_ip tunnel_id
            t w).2.2.sw.br_tun_flows.filter (fun r => P r.key) =
          (add_flow (setup_ovs_bridges_if_need (model_env render nm ty demo) w).2.sw.br_tun_flows
            (table22_rule (model_get_or_create_vlan_id vpc_id w.reg).1 tunnel_id
              (render (with_outport (outports_of w.reg vpc_id) (nm nt remote_ip))))).filter
            (fun r => P r.key) := by
  obtain ⟨hst, _, hsw, _⟩ := registry_neighbor ovs_execute render nm ty demo vpc_id
    nt remote_ip tunnel_id t w hv hi ht hboot
  rw [← model_env_eq render nm ty demo] at hst hsw
  have hs := ovs_execute_steering (nm nt remote_ip)
  refine ⟨?_, ?_, ?_⟩
  · rw [hst]
    simp [statuses, model_exec, ovs_execute_table22, ovs_execute_endpoint_port, hs, last_failure]
  · rw [hsw]
    simp [sw_after, model_exec, ovs_execute_table22, ovs_execute_endpoint_port, hs]
  · intro P hP
    rw [hsw]
    simp only [sw_after, model_exec, ovs_execute_table22, ovs_execute_endpoint_port, id]
    rcases (hs _).2.2 with h0 | ⟨r0, ⟨k, hk⟩, h0⟩
    · rw [h0]
    · rw [h0]
      apply filter_add_flow_other
      have : r0.key = String.mk ("table=0, priority=1,in_port=\"".data ++ k) := String.ext hk
      rw [this]
      exact hP k

theorem table22_key_ne_steering (tag : Int) (tunnel_id : Nat) (outs : String) (k : List Char) :
    String.mk ("table=0, priority=1,in_port=\"".data ++ k)
      ≠ (table22_rule tag tunnel_id outs).key := by
  intro h
  have hd := congrArg String.data h
  simp only [table22_rule, String.data_append] at hd
  exact mismatch_append_ne _ _ _ _ (by decide) hd

theorem with_outport_idem (l : List String) (name : String) :
    with_outport (with_outport l name) name = with_outport l name := by
  unfold with_outport
  by_cases h : name ∈ l
  · simp [h]
  · simp [h]

theorem model_reg_outport_again (vpc_id name : String) (t : vpc_table) :
    model_add_outport vpc_id name (model_get_or_create_vlan_id vpc_id
        (model_add_outport vpc_id name (model_get_or_create_vlan_id vpc_id t).2)).2 =
      model_add_outport vpc_id name (model_get_or_create_vlan_id vpc_id t).2 := by
  have hf := find_after_add_outport t vpc_id name
  rw [get_or_create_of_find _ _ _ hf]
  simp only []
  conv_lhs => rw [model_add_outport]
  apply update_vpc_id _ _ _ _ hf
  simp only [with_outport_idem]

theorem outports_again (vpc_id name : String) (t : vpc_table) :
    with_outport (outports_of (model_add_outport vpc_id name
        (model_get_or_create_vlan_id vpc_id t).2) vpc_id) name =
      with_outport (outports_of t vpc_id) name := by
  rw [outports_after_add_outport, with_outport_idem]

theorem setup_fast_trace {S V N : Type} (env : Env S V N) (w : World S V)
    (h : (env.execute_system_command "/usr/bin/ovs-vsctl br-exists br-int" w.sw).1.1 =
        EXIT_SUCCESS) :
    (setup_ovs_bridges_if_need env w).2.trace.map Prod.fst =
      w.trace.map Prod.fst ++ bridge_queries := by
  rw [setup_fast env w h, run_all_trace, List.map_append, map_fst_zip_statuses]

theorem model_setup_present_trace {N : Type} (render : List String → String)
    (nm : N → String → String) (ty : N → String) (demo : Bool) (w : World ovs_switch vpc_table)
    (h : "br-int" ∈ w.sw.bridges) :
    (setup_ovs_bridges_if_need (model_env render nm ty demo) w).2.trace.map Prod.fst =
      w.trace.map Prod.fst ++ bridge_queries := by
  apply setup_fast_trace
  rw [model_exec, ovs_query_int, if_pos h]

theorem sw_after_keeps {S V N : Type} (env : Env S V N) (P : S → Prop)
    (h_keep : ∀ c s, P s → P (env.execute_system_command c s).2) (cs : List String) (s : S)
    (h : P s) : P (sw_after env cs s) := by
  induction cs generalizing s with
  | nil => exact h
  | cons c cs ih => exact ih _ (h_keep c s h)

theorem sw_after_append {S V N : Type} (env : Env S V N) (cs ds : List String) (s : S) :
    sw_after env (cs ++ ds) s = sw_after env ds (sw_after env cs s) := by
  induction cs generalizing s with
  | nil => rfl
  | cons c cs ih => simp [sw_after, ih]

/-- After a bootstrap that returned success br-int answers the existence query,
on any switch where a successful add-br makes the bridge exist and no command
removes a bridge. -/
theorem setup_ok_present {S V N : Type} (env : Env S V N) (present : String → S → Prop)
    (h_query : ∀ b s, (env.execute_system_command ("/usr/bin/ovs-vsctl br-exists " ++ b) s).1.1
      = EXIT_SUCCESS ↔ present b s)
    (h_add : ∀ b s, (env.execute_system_command ("/usr/bin/ovs-vsctl add-br " ++ b) s).1.1
      = EXIT_SUCCESS → present b (env.execute_system_command ("/usr/bin/ovs-vsctl add-br " ++ b)
          s).2)
    (h_keep : ∀ c b s, present b s → present b (env.execute_system_command c s).2)
    (w : World S V) (h : (setup_ovs_bridges_if_need env w).1 = EXIT_SUCCESS) :
    present "br-int" (setup_ovs_bridges_if_need env w).2.sw := by
  by_cases hq : (env.execute_system_command "/usr/bin/ovs-vsctl br-exists br-int" w.sw).1.1
      = EXIT_SUCCESS
  · rw [setup_fast env w hq, run_all_sw]
    exact sw_after_keeps env _ (fun c s => h_keep c "br-int" s) _ _
      ((h_query "br-int" w.sw).mp hq)
  · rw [setup_create env w hq] at h ⊢
    simp only [] at h
    rw [last_failure_eq_zero] at h
    have h0 := h _ (by simp only [creation_commands, statuses]; exact List.mem_cons_self _ _)
    have hp := h_add "br-int" _ h0
    rw [run_all_sw, sw_after_append]
    exact sw_after_keeps env _ (fun c s => h_keep c "br-int" s)
      (creation_commands.drop 1) _ (by rw [← run_all_sw]; exact hp)

theorem ovs_execute_query_law (b : String) (s : ovs_switch) :
    ((ovs_env false).execute_system_command ("/usr/bin/ovs-vsctl br-exists " ++ b) s).1.1
      = EXIT_SUCCESS ↔ b ∈ s.bridges := by
  show (ovs_execute ("/usr/bin/ovs-vsctl br-exists " ++ b) s).1.1 = EXIT_SUCCESS ↔ _
  rw [ovs_execute_br_exists]
  by_cases h : b ∈ s.bridges
  · simp [h]
  · simp [h]

theorem ovs_execute_add_law (b : String) (s : ovs_switch) :
    ((ovs_env false).execute_system_command ("/usr/bin/ovs-vsctl add-br " ++ b) s).1.1
      = EXIT_SUCCESS →
    b ∈ ((ovs_env false).execute_system_command ("/usr/bin/ovs-vsctl add-br " ++ b) s).2.bridges
    := by
  show (ovs_execute ("/usr/bin/ovs-vsctl add-br " ++ b) s).1.1 = EXIT_SUCCESS →
    b ∈ (ovs_execute ("/usr/bin/ovs-vsctl add-br " ++ b) s).2.bridges
  rw [ovs_execute_add_br]
  by_cases h : b ∈ s.bridges
  · simp [h]
  · simp [h]

theorem ovs_execute_keeps_bridges (c b : String) (s : ovs_switch) (h : b ∈ s.bridges) :
    b ∈ (ovs_execute c s).2.bridges := by
  unfold ovs_execute
  split
  · exact h
  · split
    · split
      · exact h
      · exact List.mem_append_left _ h
    · split
      · exact h
      · split <;> exact h

theorem neighbor_calls_append {S V N : Type} (env : Env S V N) (vpc_id : String)
    (xs ys : List (N × String × Nat)) (t : Nat) (w : World S V) :
    neighbor_calls env vpc_id (xs ++ ys) t w =
      ((neighbor_calls env vpc_id xs t w).1 ++
          (neighbor_calls env vpc_id ys (neighbor_calls env vpc_id xs t w).2.1
            (neighbor_calls env vpc_id xs t w).2.2).1,
        (neighbor_calls env vpc_id ys (neighbor_calls env vpc_id xs t w).2.1
          (neighbor_calls env vpc_id xs t w).2.2).2) := by
  induction xs generalizing t w with
  | nil => rfl
  | cons c xs ih => simp [neighbor_calls, ih]

theorem foldl_with_outport (old names : List String) (h : (old ++ names).Nodup) :
    names.foldl with_outport old = old ++ names := by
  induction names generalizing old with
  | nil => simp
  | cons n names ih =>
    have hn : n ∉ old := by
      intro hmem
      have := List.disjoint_of_nodup_append h
      exact this hmem (List.mem_cons_self _ _)
    have h' : ((old ++ [n]) ++ names).Nodup := by simpa using h
    simp only [List.foldl_cons, with_outport, if_neg hn]
    rw [ih _ h']
    simp

section registry
variable {S N : Type} (sink : String → S → (Int × Nat) × S) (render : List String → String)
  (nm : N → String → String) (ty : N → String) (demo : Bool)

/-- Registry after a run of neighbor admissions that all returned. -/
theorem neighbor_calls_registry (vpc_id : String) (hv : vpc_id ≠ "")
    (calls : List (N × String × Nat)) (t : Nat) (w : World S vpc_table)
    (h_valid : ∀ c ∈ calls, c.2.1 ≠ "" ∧ c.2.2 ≠ 0)
    (h_ok : ∀ r ∈ (neighbor_calls (registry_env sink render nm ty demo) vpc_id calls t w).1,
      ∃ rc, r = .ok rc) :
    outports_of (neighbor_calls (registry_env sink render nm ty demo) vpc_id calls t w).2.2.reg
        vpc_id =
      (calls.map fun c => nm c.1 c.2.1).foldl with_outport (outports_of w.reg vpc_id)
    ∧ (model_get_or_create_vlan_id vpc_id
        (neighbor_calls (registry_env sink render nm ty demo) vpc_id calls t w).2.2.reg).1 =
      (model_get_or_create_vlan_id vpc_id w.reg).1 := by
  induction calls generalizing t w with
  | nil => exact ⟨rfl, rfl⟩
  | cons c rest ih =>
    obtain ⟨hvalid_c, hvalid_rest⟩ := List.forall_mem_cons.mp h_valid
    simp only [neighbor_calls] at h_ok ⊢
    obtain ⟨⟨rc, hrc⟩, hok_rest⟩ := List.forall_mem_cons.mp h_ok
    have hboot := neighbor_ok_boot _ _ _ _ _ _ _ _ hrc
    obtain ⟨_, hreg, _, _⟩ := registry_neighbor sink render nm ty demo vpc_id c.1 c.2.1 c.2.2 t w
      hv hvalid_c.1 hvalid_c.2 hboot
    obtain ⟨ih1, ih2⟩ := ih _ _ hvalid_rest hok_rest
    rw [ih1, ih2, hreg, outports_after_add_outport, tag_after_add_outport]
    exact ⟨rfl, rfl⟩

end registry

theorem names_nodup {N : Type} (nm : N → String → String)
    (h_inj : ∀ a b x y, nm a x = nm b y → x = y) (calls : List (N × String × Nat))
    (h : (calls.map fun c => c.2.1).Nodup) : (calls.map fun c => nm c.1 c.2.1).Nodup := by
  apply List.Nodup.map_on _ (List.Nodup.of_map _ h)
  intro x hx y hy hxy
  exact List.inj_on_of_nodup_map h hx hy (h_inj _ _ _ _ hxy)

/-- The last of a run of neighbor admissions over the model registry, started
with no endpoint registered for the VPC. -/
theorem neighbor_calls_last {S N : Type} (sink : String → S → (Int × Nat) × S)
    (render : List String → String) (nm : N → String → String) (ty : N → String) (demo : Bool)
    (vpc_id : String) (hv : vpc_id ≠ "")
    (init : List (N × String × Nat)) (last : N × String × Nat) (t : Nat)
    (w : World S vpc_table)
    (h_names : ((init ++ [last]).map fun c => nm c.1 c.2.1).Nodup)
    (h_valid : ∀ c ∈ init ++ [last], c.2.1 ≠ "" ∧ c.2.2 ≠ 0)
    (h_fresh : outports_of w.reg vpc_id = [])
    (h_ok : ∀ r ∈ (neighbor_calls (registry_env sink render nm ty demo) vpc_id
      (init ++ [last]) t w).1, ∃ rc, r = .ok rc) :
    outports_of (neighbor_calls (registry_env sink render nm ty demo) vpc_id
        (init ++ [last]) t w).2.2.reg vpc_id = (init ++ [last]).map (fun c => nm c.1 c.2.1)
    ∧ [table22_command (model_get_or_create_vlan_id vpc_id w.reg).1 last.2.2
          (render ((init ++ [last]).map fun c => nm c.1 c.2.1)),
        table0_steering_command (nm last.1 last.2.1)]
      <:+ (neighbor_calls (registry_env sink render nm ty demo) vpc_id
        (init ++ [last]) t w).2.2.trace.map Prod.fst := by
  have hall := neighbor_calls_registry sink render nm ty demo vpc_id hv (init ++ [last]) t w
    h_valid h_ok
  rw [h_fresh, foldl_with_outport [] _ (by simpa using h_names), List.nil_append] at hall
  refine ⟨hall.1, ?_⟩
  rw [neighbor_calls_append] at h_ok ⊢
  simp only [List.mem_append] at h_ok
  have h_valid_init : ∀ c ∈ init, c.2.1 ≠ "" ∧ c.2.2 ≠ 0 :=
    fun c hc => h_valid c (List.mem_append_left _ hc)
  have h_valid_last : last.2.1 ≠ "" ∧ last.2.2 ≠ 0 :=
    h_valid last (List.mem_append_right _ (List.mem_singleton.mpr rfl))
  have h_names' : ((init.map fun c => nm c.1 c.2.1) ++ [nm last.1 last.2.1]).Nodup := by
    simpa using h_names
  obtain ⟨hout, htag⟩ := neighbor_calls_registry sink render nm ty demo vpc_id hv init t w
    h_valid_init (fun r hr => h_ok r (Or.inl hr))
  rw [h_fresh, foldl_with_outport [] _
    (by simpa using (List.Nodup.of_append_left h_names')), List.nil_append] at hout
  obtain ⟨rc, hrc⟩ := h_ok _ (Or.inr (by simp only [neighbor_calls]; exact List.mem_cons_self _ _))
  have hboot := neighbor_ok_boot _ _ _ _ _ _ _ _ hrc
  obtain ⟨_, _, _, htr⟩ := registry_neighbor sink render nm ty demo vpc_id last.1 last.2.1 last.2.2
    _ _ hv h_valid_last.1 h_valid_last.2 hboot
  have hnot : nm last.1 last.2.1 ∉ init.map fun c => nm c.1 c.2.1 := by
    intro hmem
    exact List.disjoint_of_nodup_append h_names' hmem (List.mem_singleton.mpr rfl)
  simp only [neighbor_calls]
  rw [htr, hout, htag, with_outport, if_neg hnot]
  simp only [List.map_append, List.map_cons, List.map_nil]
  exact (List.suffix_cons _ _).trans (List.suffix_append _ _)

theorem ovs_execute_steering_ports (name : String) (s : ovs_switch) :
    (ovs_execute (table0_steering_command name) s).2.br_tun_ports = s.br_tun_ports := by
  have hd : (table0_steering_command name).data = "/usr/bin/ovs-ofctl add-flow br-tun \"".data ++
      ("table=0, priority=1,in_port=\"".data ++ (name.data ++
          "\" actions=resubmit(,4)\"".data)) := by
    simp only [table0_steering_command, String.data_append, List.append_assoc]
    rfl
  rw [ovs_execute_flow _ _ s hd]
  cases split_actions ("table=0, priority=1,in_port=\"".data ++
      (name.data ++ "\" actions=resubmit(,4)\"".data)) with
  | none => rfl
  | some p =>
    obtain ⟨k, a⟩ := p
    by_cases hq : a.getLast? = some '"'
    · simp only [hq, if_true]
    · simp only [hq, if_false]

/-- The ports of br-tun after a valid neighbor admission on the model switch. -/
theorem model_neighbor_ports {N : Type} (render : List String → String)
    (nm : N → String → String) (ty : N → String) (demo : Bool) (vpc_id : String) (nt : N)
    (remote_ip : String) (tunnel_id t : Nat) (w : World ovs_switch vpc_table)
    (hv : vpc_id ≠ "") (hi : remote_ip ≠ "") (ht : tunnel_id ≠ 0)
    (hboot : (setup_ovs_bridges_if_need (model_env render nm ty demo) w).1 = EXIT_SUCCESS) :
    (create_update_neighbor_port (model_env render nm ty demo) vpc_id nt remote_ip tunnel_id t
        w).2.2.sw.br_tun_ports =
      with_outport (setup_ovs_bridges_if_need (model_env render nm ty demo) w).2.sw.br_tun_ports
        (created_port (nm nt remote_ip)) := by
  obtain ⟨_, _, hsw, _⟩ := registry_neighbor ovs_execute render nm ty demo vpc_id
    nt remote_ip tunnel_id t w hv hi ht hboot
  rw [← model_env_eq render nm ty demo] at hsw
  rw [hsw]
  simp only [sw_after, model_exec, ovs_execute_table22, ovs_execute_endpoint_port,
    ovs_execute_steering_ports]

/-- Two successive port admissions on the model switch, call by call. -/
theorem two_port_admissions_aux {N : Type} (render : List String → String)
    (nm : N → String → String) (ty : N → String) (demo : Bool)
    (vpc_id port₁ ip₁ port₂ ip₂ : String) (T1 T2 t : Nat) (w : World ovs_switch vpc_table)
    (hv : vpc_id ≠ "") (hp₁ : port₁ ≠ "") (hi₁ : ip₁ ≠ "") (hp₂ : port₂ ≠ "") (hi₂ : ip₂ ≠ "")
    (hT1 : T1 ≠ 0) (hT2 : T2 ≠ 0)
    (h_first : ∃ rc, (configure_port (model_env render nm ty demo) vpc_id port₁ ip₁ T1 t w).1 =
        .ok rc) :
    model_get_or_create_vlan_id vpc_id
        (configure_port (model_env render nm ty demo) vpc_id port₁ ip₁ T1 t w).2.2.reg =
      ((model_get_or_create_vlan_id vpc_id w.reg).1,
        (configure_port (model_env render nm ty demo) vpc_id port₁ ip₁ T1 t w).2.2.reg)
    ∧ (configure_port (model_env render nm ty demo) vpc_id port₂ ip₂ T2
        (configure_port (model_env render nm ty demo) vpc_id port₁ ip₁ T1 t w).2.1
        (configure_port (model_env render nm ty demo) vpc_id port₁ ip₁ T1 t w).2.2).1 = .ok
            EXIT_SUCCESS
    ∧ (configure_port (model_env render nm ty demo) vpc_id port₂ ip₂ T2
        (configure_port (model_env render nm ty demo) vpc_id port₁ ip₁ T1 t w).2.1
        (configure_port (model_env render nm ty demo) vpc_id port₁ ip₁ T1 t
            w).2.2).2.2.sw.br_tun_flows.filter
        (fun r => r.key = (table4_rule T2 (model_get_or_create_vlan_id vpc_id w.reg).1).key)
      = [table4_rule T2 (model_get_or_create_vlan_id vpc_id w.reg).1]
    ∧ rules_with "table=4," (configure_port (model_env render nm ty demo) vpc_id port₂ ip₂ T2
        (configure_port (model_env render nm ty demo) vpc_id port₁ ip₁ T1 t w).2.1
        (configure_port (model_env render nm ty demo) vpc_id port₁ ip₁ T1 t
            w).2.2).2.2.sw.br_tun_flows
      = (rules_with "table=4," w.sw.br_tun_flows).filter
          (fun r => r.key ≠ (table4_rule T1 (model_get_or_create_vlan_id vpc_id w.reg).1).key
            ∧ r.key ≠ (table4_rule T2 (model_get_or_create_vlan_id vpc_id w.reg).1).key)
        ++ (if T1 = T2 then [table4_rule T2 (model_get_or_create_vlan_id vpc_id w.reg).1]
            else [table4_rule T1 (model_get_or_create_vlan_id vpc_id w.reg).1,
                  table4_rule T2 (model_get_or_create_vlan_id vpc_id w.reg).1]) := by
  obtain ⟨rc, hrc⟩ := h_first
  have hboot₁ := configure_port_ok_boot _ _ _ _ _ _ _ _ hrc
  obtain ⟨_, hsw₁, hreg₁⟩ := model_configure_port render nm ty demo vpc_id port₁ ip₁ T1 t w hv hp₁
      hi₁ hT1 hboot₁
  have hbr : "br-int" ∈
      (configure_port (model_env render nm ty demo) vpc_id port₁ ip₁ T1 t w).2.2.sw.bridges := by
    rw [hsw₁]; exact (model_setup_ok render nm ty demo w hboot₁).1
  obtain ⟨hboot₂, hbsw₂⟩ := model_setup_present render nm ty demo
    (configure_port (model_env render nm ty demo) vpc_id port₁ ip₁ T1 t w).2.2 hbr
  obtain ⟨hok₂, hsw₂, _⟩ := model_configure_port render nm ty demo vpc_id port₂ ip₂ T2
    (configure_port (model_env render nm ty demo) vpc_id port₁ ip₁ T1 t w).2.1
    (configure_port (model_env render nm ty demo) vpc_id port₁ ip₁ T1 t w).2.2 hv hp₂ hi₂ hT2 hboot₂
  have htag : model_get_or_create_vlan_id vpc_id
        (configure_port (model_env render nm ty demo) vpc_id port₁ ip₁ T1 t w).2.2.reg =
      ((model_get_or_create_vlan_id vpc_id w.reg).1,
        (configure_port (model_env render nm ty demo) vpc_id port₁ ip₁ T1 t w).2.2.reg) := by
    rw [hreg₁]; exact model_reg_reuse vpc_id port₁ w.reg
  refine ⟨htag, hok₂, ?_, ?_⟩
  · rw [hsw₂, htag]
    exact filter_key_add_flow _ _
  · rw [hsw₂, htag, hbsw₂, hsw₁]
    simp only []
    rw [rules_with_add_flow_same _ _ _ (table4_key_starts _ _),
      rules_with_add_flow_same _ _ _ (table4_key_starts _ _),
      rules_with_table4_boot render nm ty demo w hboot₁]
    by_cases hT : T1 = T2
    · subst hT
      simp [List.filter_append, List.filter_filter]
    · have hk : (table4_rule T1 (model_get_or_create_vlan_id vpc_id w.reg).1).key ≠
          (table4_rule T2 (model_get_or_create_vlan_id vpc_id w.reg).1).key :=
        fun e => hT (table4_key_inj _ _ _ _ e)
      simp [hT, hk, List.filter_append, List.filter_filter]
      apply List.filter_congr
      intro x _
      exact Bool.and_comm _ _

/-- The second of two neighbor admissions toward one remote creates no port. -/
theorem repeated_neighbor_ports {N : Type} (render : List String → String)
    (nm : N → String → String) (ty : N → String) (demo : Bool) (vpc_id : String) (nt : N)
    (remote_ip : String) (T1 T2 t : Nat) (w : World ovs_switch vpc_table)
    (hv : vpc_id ≠ "") (hi : remote_ip ≠ "") (hT1 : T1 ≠ 0) (hT2 : T2 ≠ 0)
    (h_first : ∃ rc,
      (create_update_neighbor_port (model_env render nm ty demo) vpc_id nt remote_ip T1 t w).1
        = .ok rc) :
    (create_update_neighbor_port (model_env render nm ty demo) vpc_id nt remote_ip T2
        (create_update_neighbor_port (model_env render nm ty demo) vpc_id nt remote_ip T1 t w).2.1
        (create_update_neighbor_port (model_env render nm ty demo) vpc_id nt remote_ip T1 t
          w).2.2).2.2.sw.br_tun_ports =
      (create_update_neighbor_port (model_env render nm ty demo) vpc_id nt remote_ip T1 t
        w).2.2.sw.br_tun_ports := by
  obtain ⟨rc, hrc⟩ := h_first
  have hboot₁ := neighbor_ok_boot _ _ _ _ _ _ _ _ hrc
  have hp₁ := model_neighbor_ports render nm ty demo vpc_id nt remote_ip T1 t w hv hi hT1 hboot₁
  obtain ⟨_, hbr₁, _⟩ := model_neighbor render nm ty demo vpc_id nt remote_ip T1 t w hv hi hT1
    hboot₁
  have hbr : "br-int" ∈ (create_update_neighbor_port (model_env render nm ty demo) vpc_id nt
      remote_ip T1 t w).2.2.sw.bridges := by
    rw [hbr₁]; exact (model_setup_ok render nm ty demo w hboot₁).1
  obtain ⟨hboot₂, hsw₂⟩ := model_setup_present render nm ty demo
    (create_update_neighbor_port (model_env render nm ty demo) vpc_id nt remote_ip T1 t w).2.2 hbr
  rw [model_neighbor_ports render nm ty demo vpc_id nt remote_ip T2 _ _ hv hi hT2 hboot₂, hsw₂,
    hp₁, with_outport_idem]

/-- Two successive neighbor admissions toward one remote on the model switch,
call by call. -/
theorem repeated_neighbor_aux {N : Type} (render : List String → String)
    (nm : N → String → String) (ty : N → String) (demo : Bool) (vpc_id : String) (nt : N) (remote_ip : String)
    (T1 T2 t : Nat) (w : World ovs_switch vpc_table)
    (hv : vpc_id ≠ "") (hi : remote_ip ≠ "") (hT1 : T1 ≠ 0) (hT2 : T2 ≠ 0)
    (h_first : ∃ rc,
      (create_update_neighbor_port (model_env render nm ty demo) vpc_id nt remote_ip T1 t w).1 =
          .ok rc) :
    (create_update_neighbor_port (model_env render nm ty demo) vpc_id nt remote_ip T1 t
        w).2.2.trace.map
        Prod.fst =
      (setup_ovs_bridges_if_need (model_env render nm ty demo) w).2.trace.map Prod.fst ++
        [endpoint_port_command (nm nt remote_ip) (ty nt) remote_ip,
         table22_command (model_get_or_create_vlan_id vpc_id w.reg).1 T1
           (render (with_outport (outports_of w.reg vpc_id) (nm nt remote_ip))),
         table0_steering_command (nm nt remote_ip)]
    ∧ (create_update_neighbor_port (model_env render nm ty demo) vpc_id nt remote_ip T2
        (create_update_neighbor_port (model_env render nm ty demo) vpc_id nt remote_ip T1 t w).2.1
        (create_update_neighbor_port (model_env render nm ty demo) vpc_id nt remote_ip T1 t
            w).2.2).2.2.trace.map
        Prod.fst =
      (create_update_neighbor_port (model_env render nm ty demo) vpc_id nt remote_ip T1 t
          w).2.2.trace.map
        Prod.fst ++ bridge_queries ++
        [endpoint_port_command (nm nt remote_ip) (ty nt) remote_ip,
         table22_command (model_get_or_create_vlan_id vpc_id w.reg).1 T2
           (render (with_outport (outports_of w.reg vpc_id) (nm nt remote_ip))),
         table0_steering_command (nm nt remote_ip)]
    ∧ (create_update_neighbor_port (model_env render nm ty demo) vpc_id nt remote_ip T2
        (create_update_neighbor_port (model_env render nm ty demo) vpc_id nt remote_ip T1 t w).2.1
        (create_update_neighbor_port (model_env render nm ty demo) vpc_id nt remote_ip T1 t
            w).2.2).2.2.reg =
      (create_update_neighbor_port (model_env render nm ty demo) vpc_id nt remote_ip T1 t w).2.2.reg
    ∧ (create_update_neighbor_port (model_env render nm ty demo) vpc_id nt remote_ip T2
        (create_update_neighbor_port (model_env render nm ty demo) vpc_id nt remote_ip T1 t w).2.1
        (create_update_neighbor_port (model_env render nm ty demo) vpc_id nt remote_ip T1 t
          w).2.2).2.2.sw.br_tun_flows.filter
        (fun r => r.key = (table22_rule (model_get_or_create_vlan_id vpc_id w.reg).1 T2
          (render (with_outport (outports_of w.reg vpc_id)
            (nm nt remote_ip)))).key) =
      [table22_rule (model_get_or_create_vlan_id vpc_id w.reg).1 T2
        (render (with_outport (outports_of w.reg vpc_id) (nm nt remote_ip)))] := by
  obtain ⟨rc, hrc⟩ := h_first
  have hboot₁ := neighbor_ok_boot _ _ _ _ _ _ _ _ hrc
  obtain ⟨_, hreg₁, _, htr₁⟩ := registry_neighbor ovs_execute render nm ty demo
    vpc_id nt remote_ip T1 t w hv hi hT1 hboot₁
  rw [← model_env_eq render nm ty demo] at hreg₁ htr₁
  obtain ⟨_, hbr₁, _⟩ := model_neighbor render nm ty demo vpc_id nt remote_ip T1 t w hv hi hT1
      hboot₁
  have hbr : "br-int" ∈ (create_update_neighbor_port (model_env render nm ty demo) vpc_id nt
      remote_ip T1 t
      w).2.2.sw.bridges := by
    rw [hbr₁]; exact (model_setup_ok render nm ty demo w hboot₁).1
  obtain ⟨hboot₂, _⟩ := model_setup_present render nm ty demo
    (create_update_neighbor_port (model_env render nm ty demo) vpc_id nt remote_ip T1 t w).2.2 hbr
  obtain ⟨_, hreg₂, _, htr₂⟩ := registry_neighbor ovs_execute render nm ty demo
    vpc_id nt remote_ip T2
    (create_update_neighbor_port (model_env render nm ty demo) vpc_id nt remote_ip T1 t w).2.1
    (create_update_neighbor_port (model_env render nm ty demo) vpc_id nt remote_ip T1 t w).2.2 hv
        hi hT2 hboot₂
  rw [← model_env_eq render nm ty demo] at hreg₂ htr₂
  obtain ⟨_, _, hfl₂⟩ := model_neighbor render nm ty demo vpc_id nt remote_ip T2
    (create_update_neighbor_port (model_env render nm ty demo) vpc_id nt remote_ip T1 t w).2.1
    (create_update_neighbor_port (model_env render nm ty demo) vpc_id nt remote_ip T1 t w).2.2 hv
        hi hT2 hboot₂
  have htag : (model_get_or_create_vlan_id vpc_id
      (create_update_neighbor_port (model_env render nm ty demo) vpc_id nt remote_ip T1 t
          w).2.2.reg).1 =
      (model_get_or_create_vlan_id vpc_id w.reg).1 := by
    rw [hreg₁]; exact tag_after_add_outport _ _ _
  have houts : with_outport (outports_of
      (create_update_neighbor_port (model_env render nm ty demo) vpc_id nt remote_ip T1 t
          w).2.2.reg vpc_id)
      (nm nt remote_ip) =
      with_outport (outports_of w.reg vpc_id) (nm nt remote_ip) := by
    rw [hreg₁]; exact outports_again _ _ _
  refine ⟨htr₁, ?_, ?_, ?_⟩
  · rw [htr₂, model_setup_present_trace render nm ty demo _ hbr, htag, houts]
  · rw [hreg₂, hreg₁]
    exact model_reg_outport_again _ _ _
  · have h := hfl₂ (fun k => decide (k = (table22_rule (model_get_or_create_vlan_id vpc_id w.reg).1
      T2 (render (with_outport (outports_of w.reg vpc_id) (nm nt remote_ip)))).key))
      (fun k => decide_eq_false (table22_key_ne_steering _ _ _ k))
    rw [htag, houts] at h
    rw [h]
    exact filter_key_add_flow _ _

/-! # The claims -/

/-- C1 (evaluation at the failing inputs): with br-int present and br-tun
absent the bootstrap returns success, and with br-int absent and br-tun present
it issues all ten creation commands and returns success. -/
theorem bootstrap_one_bridge_not_rejected :
    (setup_ovs_bridges_if_need (scripted_env false) (fresh_world [0, 2])).1 = EXIT_SUCCESS
    ∧ (setup_ovs_bridges_if_need (scripted_env false) (fresh_world [0, 2])).2.trace =
        [("/usr/bin/ovs-vsctl br-exists br-int", 0), ("/usr/bin/ovs-vsctl br-exists br-tun", 2)]
    ∧ (setup_ovs_bridges_if_need (scripted_env false) (fresh_world [2, 0])).1 = EXIT_SUCCESS
    ∧ (setup_ovs_bridges_if_need (scripted_env false) (fresh_world [2, 0])).2.trace =
        [("/usr/bin/ovs-vsctl br-exists br-int", 2), ("/usr/bin/ovs-vsctl br-exists br-tun", 0)]
          ++ creation_commands.map (fun c => (c, 0)) := by
  decide

/-- C2: a port admission with an empty vpc_id, port_name or virtual_ip or a
zero tunnel_id, and a neighbor admission with an empty vpc_id or remote_ip or a
zero tunnel_id, throws invalid_argument naming the first violated field and
returns the world (trace, registry, switch) and the elapsed-time total exactly
as they were. -/
theorem precondition_violation_has_no_effect {S V N : Type} (env : Env S V N)
    (vpc_id port_name virtual_ip remote_ip : String) (network_type : N) (tunnel_id : Nat)
    (culminative_time : Nat) (w : World S V) :
    ((vpc_id = "" ∨ port_name = "" ∨ virtual_ip = "" ∨ tunnel_id = 0) →
      configure_port env vpc_id port_name virtual_ip tunnel_id culminative_time w =
        (.error (.invalid_argument
          (if vpc_id = "" then "vpc_id is empty"
           else if port_name = "" then "port_name is empty"
           else if virtual_ip = "" then "virtual_ip is empty"
           else "tunnel_id is 0")), culminative_time, w))
    ∧ ((vpc_id = "" ∨ remote_ip = "" ∨ tunnel_id = 0) →
      create_update_neighbor_port env vpc_id network_type remote_ip tunnel_id culminative_time w =
        (.error (.invalid_argument
          (if vpc_id = "" then "vpc_id is empty"
           else if remote_ip = "" then "remote_ip is empty"
           else "tunnel_id is 0")), culminative_time, w)) := by
  constructor
  · intro h
    unfold configure_port
    by_cases hv : vpc_id = ""
    · subst hv; rfl
    · rw [isEmpty_eq_false hv, if_neg hv]
      by_cases hp : port_name = ""
      · subst hp; rfl
      · rw [isEmpty_eq_false hp, if_neg hp]
        by_cases hi : virtual_ip = ""
        · subst hi; rfl
        · rw [isEmpty_eq_false hi, if_neg hi]
          have ht : tunnel_id = 0 := by tauto
          subst ht; rfl
  · intro h
    unfold create_update_neighbor_port
    by_cases hv : vpc_id = ""
    · subst hv; rfl
    · rw [isEmpty_eq_false hv, if_neg hv]
      by_cases hi : remote_ip = ""
      · subst hi; rfl
      · rw [isEmpty_eq_false hi, if_neg hi]
        have ht : tunnel_id = 0 := by tauto
        subst ht; rfl

/-- Witness for C2: a port admission whose port_name is the first empty field
and a neighbor admission whose tunnel_id is 0. -/
theorem precondition_violation_has_no_effect_witness :
    configure_port (scripted_env true) "vpc-1" "" "" 0 7 (fresh_world [1, 1]) =
        (.error (.invalid_argument "port_name is empty"), 7, fresh_world [1, 1])
    ∧ create_update_neighbor_port (scripted_env true) "vpc-1" "vxlan" "10.0.0.1" 0 7
        (fresh_world [1, 1]) =
        (.error (.invalid_argument "tunnel_id is 0"), 7, fresh_world [1, 1]) :=
  ⟨(precondition_violation_has_no_effect (scripted_env true) "vpc-1" "" "" "10.0.0.1" "vxlan" 0
      7 (fresh_world [1, 1])).1 (by decide),
   (precondition_violation_has_no_effect (scripted_env true) "vpc-1" "x" "x" "10.0.0.1" "vxlan" 0
      7 (fresh_world [1, 1])).2 (by decide)⟩

/-- C3: in a valid neighbor admission whose bootstrap succeeds, the table-22
command, issued right after the endpoint-port command and before the table-0
steering command, matches dl_vlan on the tag the registry gives for the VPC,
strips the VLAN tag, loads the given tunnel_id and outputs to the text the
registry reports for the VPC once this call's endpoint is registered; if that
read-back fails no table-22 command is issued.  Consequently, over a registry
that keeps an ordered duplicate-free endpoint list per VPC and an endpoint
naming that is injective in the remote address, after N admissions that return
normally, for N distinct remote addresses under one vpc_id with no endpoint
registered before, the registry reports exactly the N endpoint names in call
order and the last table-22 command outputs to that list. -/
theorem flood_rule_lists_registry_endpoints {S V N : Type} (env : Env S V N)
    (vpc_id : String) (nt : N) (remote_ip : String) (tunnel_id t : Nat) (w : World S V)
    (hv : vpc_id ≠ "") (hi : remote_ip ≠ "") (ht : tunnel_id ≠ 0)
    (hboot : (setup_ovs_bridges_if_need env w).1 = EXIT_SUCCESS) :
    ((env.get_outports vpc_id (env.add_outport vpc_id (env.aca_get_outport_name nt remote_ip)
        (env.get_or_create_vlan_id vpc_id w.reg).2)).1.1 = EXIT_SUCCESS →
      (create_update_neighbor_port env vpc_id nt remote_ip tunnel_id t w).2.2.trace.map Prod.fst =
        (setup_ovs_bridges_if_need env w).2.trace.map Prod.fst ++
          [endpoint_port_command (env.aca_get_outport_name nt remote_ip)
             (env.aca_get_network_type_string nt) remote_ip,
           table22_command (env.get_or_create_vlan_id vpc_id w.reg).1 tunnel_id
             (env.get_outports vpc_id (env.add_outport vpc_id
               (env.aca_get_outport_name nt remote_ip)
               (env.get_or_create_vlan_id vpc_id w.reg).2)).1.2,
           table0_steering_command (env.aca_get_outport_name nt remote_ip)])
    ∧ ((env.get_outports vpc_id (env.add_outport vpc_id (env.aca_get_outport_name nt remote_ip)
        (env.get_or_create_vlan_id vpc_id w.reg).2)).1.1 ≠ EXIT_SUCCESS →
      (create_update_neighbor_port env vpc_id nt remote_ip tunnel_id t w).1 =
          .error (.runtime_error "vpc_id entry not find in vpc_table")
      ∧ (create_update_neighbor_port env vpc_id nt remote_ip tunnel_id t w).2.2.trace.map
          Prod.fst =
        (setup_ovs_bridges_if_need env w).2.trace.map Prod.fst ++
          [endpoint_port_command (env.aca_get_outport_name nt remote_ip)
             (env.aca_get_network_type_string nt) remote_ip])
    ∧ (∀ (S' N' : Type) (sink : String → S' → (Int × Nat) × S')
        (render : List String → String) (nm : N' → String → String) (ty : N' → String)
        (demo : Bool) (calls : List (N' × String × Nat)) (last : N' × String × Nat) (t' : Nat)
        (w' : World S' vpc_table),
        (∀ a b x y, nm a x = nm b y → x = y) →
        (∀ c ∈ calls, c.2.1 ≠ "" ∧ c.2.2 ≠ 0) →
        (calls.map fun c => c.2.1).Nodup →
        outports_of w'.reg vpc_id = [] →
        (∀ r ∈ (neighbor_calls (registry_env sink render nm ty demo) vpc_id calls t' w').1,
          ∃ rc, r = .ok rc) →
        calls.getLast? = some last →
        (calls.map fun c => nm c.1 c.2.1).length = calls.length
        ∧ (calls.map fun c => nm c.1 c.2.1).Nodup
        ∧ outports_of (neighbor_calls (registry_env sink render nm ty demo) vpc_id calls t'
            w').2.2.reg vpc_id = calls.map (fun c => nm c.1 c.2.1)
        ∧ [table22_command (model_get_or_create_vlan_id vpc_id w'.reg).1 last.2.2
              (render (calls.map fun c => nm c.1 c.2.1)),
            table0_steering_command (nm last.1 last.2.1)]
          <:+ (neighbor_calls (registry_env sink render nm ty demo) vpc_id calls t'
            w').2.2.trace.map Prod.fst) := by
  refine ⟨?_, ?_, ?_⟩
  · intro hgot
    rw [neighbor_eq env vpc_id nt remote_ip tunnel_id t w hv hi ht hboot]
    simp only [hgot, ne_eq, not_true_eq_false, if_false, issue_all_w, run_all_trace]
    simp [issue, statuses]
  · intro hgot
    rw [neighbor_eq env vpc_id nt remote_ip tunnel_id t w hv hi ht hboot]
    simp only [ne_eq, hgot, not_false_eq_true, if_true]
    simp [issue]
  · intro S' N' sink render nm ty demo calls last t' w' h_inj h_valid h_distinct h_fresh h_ok
      h_last
    obtain ⟨init, rfl⟩ := List.getLast?_eq_some_iff.mp h_last
    have h_names := names_nodup nm h_inj _ h_distinct
    obtain ⟨h1, h2⟩ := neighbor_calls_last sink render nm ty demo vpc_id hv init last t' w'
      h_names h_valid h_fresh h_ok
    exact ⟨List.length_map _ _, h_names, h1, h2⟩

/-- Witness for C3: one admission on the scripted executor whose read-back
succeeds, and three admissions toward three distinct addresses. -/
theorem flood_rule_lists_registry_endpoints_witness :
    (create_update_neighbor_port (scripted_env false) "vpc-1" "vxlan" "192.168.1.10" 42 0
        (fresh_world [0, 0, 0, 0, 0])).2.2.trace.map Prod.fst =
      (setup_ovs_bridges_if_need (scripted_env false)
        (fresh_world [0, 0, 0, 0, 0])).2.trace.map Prod.fst ++
        [endpoint_port_command "vxlan-192.168.1.10" "vxlan" "192.168.1.10",
         table22_command 1 42 "vxlan-192.168.1.10",
         table0_steering_command "vxlan-192.168.1.10"]
    ∧ [table22_command 1 43
          (join_outports ["ep-10.0.0.1", "ep-10.0.0.2", "ep-10.0.0.3"]),
        table0_steering_command "ep-10.0.0.3"]
      <:+ (neighbor_calls (registry_env scripted_sink join_outports address_name id false) "vpc-1"
        [("vxlan", "10.0.0.1", 42), ("vxlan", "10.0.0.2", 42), ("gre", "10.0.0.3", 43)] 0
        (fresh_world [])).2.2.trace.map Prod.fst :=
  have h := flood_rule_lists_registry_endpoints (scripted_env false) "vpc-1" "vxlan"
    "192.168.1.10" 42 0 (fresh_world [0, 0, 0, 0, 0]) (by decide) (by decide) (by decide)
    (by decide)
  ⟨h.1 (by decide),
   (h.2.2 (List Int) String scripted_sink join_outports address_name id false
      [("vxlan", "10.0.0.1", 42), ("vxlan", "10.0.0.2", 42), ("gre", "10.0.0.3", 43)]
      ("gre", "10.0.0.3", 43) 0 (fresh_world [])
      (fun a b x y hxy => string_append_cancel "ep-" x y hxy)
      (by decide) (by decide) (by decide)
      (by
        intro r hr
        have e : (neighbor_calls (registry_env scripted_sink join_outports address_name id false)
            "vpc-1" [("vxlan", "10.0.0.1", 42), ("vxlan", "10.0.0.2", 42), ("gre", "10.0.0.3", 43)]
            0 (fresh_world [])).1 = [.ok 0, .ok 0, .ok 0] := rfl
        rw [e] at hr
        simp only [List.mem_cons, List.mem_singleton, List.not_mem_nil, or_false, or_self] at hr
        exact ⟨0, hr⟩)
      (by decide)).2.2.2⟩

/-- C4 (evaluation at the failing input): the bridges exist, the endpoint-port
creation returns status 1 and both flow commands succeed; the call returns
success. -/
theorem neighbor_port_failure_is_lost :
    (create_update_neighbor_port (scripted_env false) "vpc-1" "vxlan" "192.168.1.10" 42 0
        (fresh_world [0, 0, 1, 0, 0])).1 = .ok EXIT_SUCCESS
    ∧ (create_update_neighbor_port (scripted_env false) "vpc-1" "vxlan" "192.168.1.10" 42 0
        (fresh_world [0, 0, 1, 0, 0])).2.2.trace =
      [("/usr/bin/ovs-vsctl br-exists br-int", 0),
       ("/usr/bin/ovs-vsctl br-exists br-tun", 0),
       (endpoint_port_command "vxlan-192.168.1.10" "vxlan" "192.168.1.10", 1),
       (table22_command 1 42 "vxlan-192.168.1.10", 0),
       (table0_steering_command "vxlan-192.168.1.10", 0)] :=
  ⟨rfl, by decide⟩

/-- C5 (counterexample to the claim as stated): on an empty switch and registry,
two port admissions for "vpc-1" with tunnel identifiers 42 and then 43 both
return success and leave two table-4 rules, both rewriting to the tag of
"vpc-1"; the table-4 rules are not the single rule of tun_id=43. -/
theorem two_port_admissions_leave_two_rules :
    (port_calls (ovs_env false) "vpc-1"
        [("port-a", "10.0.0.5/24", 42), ("port-a", "10.0.0.5/24", 43)] 0
        (fresh_world empty_switch)).1 = [.ok EXIT_SUCCESS, .ok EXIT_SUCCESS]
    ∧ rules_with "table=4," (port_calls (ovs_env false) "vpc-1"
        [("port-a", "10.0.0.5/24", 42), ("port-a", "10.0.0.5/24", 43)] 0
        (fresh_world empty_switch)).2.2.sw.br_tun_flows
      = [{ key := "table=4, priority=1,tun_id=42",
           actions := "mod_vlan_vid:1,output:\"patch-int\"" },
         { key := "table=4, priority=1,tun_id=43",
           actions := "mod_vlan_vid:1,output:\"patch-int\"" }]
    ∧ rules_with "table=4," (port_calls (ovs_env false) "vpc-1"
        [("port-a", "10.0.0.5/24", 42), ("port-a", "10.0.0.5/24", 43)] 0
        (fresh_world empty_switch)).2.2.sw.br_tun_flows
      ≠ [table4_rule 43 1] :=
  ⟨rfl, by decide, by decide⟩

/-- C5 (as amended): over the model registry and the model switch, two successive
valid port admissions for the same VPC with tunnel identifiers T1 and T2, the
first returning normally, get the same isolation tag (the second call finds the
entry and allocates nothing), both return success, and the br-tun flow table
ends with exactly one rule matching tun_id=T2, which rewrites the VLAN tag to
that tag and outputs to patch-int.  For every start table, the table-4 rules at
the end are the table-4 rules of the start other than those of the table,
priority and match of the rules for T1 and T2, followed by the rule of tun_id=T2
alone when T1 = T2, and by the rule of tun_id=T1 and then the rule of tun_id=T2
when T1 ≠ T2.  Hence, from a start in which no table-4 rule rewrites to the tag
of the VPC, the table-4 rules that rewrite to that tag are that one rule when
T1 = T2 and those two when T1 ≠ T2, whatever rules of other VPCs stand beside
them; and from a start without table-4 rules they are all the table-4 rules. -/
theorem two_port_admissions_same_vpc {N : Type} (render : List String → String)
    (nm : N → String → String) (ty : N → String) (demo : Bool)
    (vpc_id port₁ ip₁ port₂ ip₂ : String) (T1 T2 t : Nat) (w : World ovs_switch vpc_table)
    (hv : vpc_id ≠ "") (hp₁ : port₁ ≠ "") (hi₁ : ip₁ ≠ "") (hp₂ : port₂ ≠ "") (hi₂ : ip₂ ≠ "")
    (hT1 : T1 ≠ 0) (hT2 : T2 ≠ 0)
    (h_first : ∃ rc,
      (configure_port (model_env render nm ty demo) vpc_id port₁ ip₁ T1 t w).1 = .ok rc) :
    model_get_or_create_vlan_id vpc_id
        (port_calls (model_env render nm ty demo) vpc_id [(port₁, ip₁, T1)] t w).2.2.reg =
      ((model_get_or_create_vlan_id vpc_id w.reg).1,
        (port_calls (model_env render nm ty demo) vpc_id [(port₁, ip₁, T1)] t w).2.2.reg)
    ∧ (port_calls (model_env render nm ty demo) vpc_id
        [(port₁, ip₁, T1), (port₂, ip₂, T2)] t w).1 = [.ok EXIT_SUCCESS, .ok EXIT_SUCCESS]
    ∧ (port_calls (model_env render nm ty demo) vpc_id
        [(port₁, ip₁, T1), (port₂, ip₂, T2)] t w).2.2.sw.br_tun_flows.filter
        (fun r => r.key = (table4_rule T2 (model_get_or_create_vlan_id vpc_id w.reg).1).key)
      = [table4_rule T2 (model_get_or_create_vlan_id vpc_id w.reg).1]
    ∧ rules_with "table=4," (port_calls (model_env render nm ty demo) vpc_id
        [(port₁, ip₁, T1), (port₂, ip₂, T2)] t w).2.2.sw.br_tun_flows
      = (rules_with "table=4," w.sw.br_tun_flows).filter
          (fun r => r.key ≠ (table4_rule T1 (model_get_or_create_vlan_id vpc_id w.reg).1).key
            ∧ r.key ≠ (table4_rule T2 (model_get_or_create_vlan_id vpc_id w.reg).1).key)
        ++ (if T1 = T2 then [table4_rule T2 (model_get_or_create_vlan_id vpc_id w.reg).1]
            else [table4_rule T1 (model_get_or_create_vlan_id vpc_id w.reg).1,
                  table4_rule T2 (model_get_or_create_vlan_id vpc_id w.reg).1])
    ∧ ((rules_with "table=4," w.sw.br_tun_flows).filter
          (fun r => r.actions =
            (table4_rule T2 (model_get_or_create_vlan_id vpc_id w.reg).1).actions) = [] →
        (rules_with "table=4," (port_calls (model_env render nm ty demo) vpc_id
          [(port₁, ip₁, T1), (port₂, ip₂, T2)] t w).2.2.sw.br_tun_flows).filter
          (fun r => r.actions =
            (table4_rule T2 (model_get_or_create_vlan_id vpc_id w.reg).1).actions)
        = if T1 = T2 then [table4_rule T2 (model_get_or_create_vlan_id vpc_id w.reg).1]
          else [table4_rule T1 (model_get_or_create_vlan_id vpc_id w.reg).1,
                table4_rule T2 (model_get_or_create_vlan_id vpc_id w.reg).1])
    ∧ (rules_with "table=4," w.sw.br_tun_flows = [] →
        rules_with "table=4," (port_calls (model_env render nm ty demo) vpc_id
          [(port₁, ip₁, T1), (port₂, ip₂, T2)] t w).2.2.sw.br_tun_flows
        = if T1 = T2 then [table4_rule T2 (model_get_or_create_vlan_id vpc_id w.reg).1]
          else [table4_rule T1 (model_get_or_create_vlan_id vpc_id w.reg).1,
                table4_rule T2 (model_get_or_create_vlan_id vpc_id w.reg).1]) := by
  obtain ⟨h1, h2, h3, h4⟩ := two_port_admissions_aux render nm ty demo vpc_id port₁ ip₁ port₂ ip₂
    T1 T2 t w hv hp₁ hi₁ hp₂ hi₂ hT1 hT2 h_first
  obtain ⟨rc, hrc⟩ := h_first
  have h0 := (model_configure_port render nm ty demo vpc_id port₁ ip₁ T1 t w hv hp₁ hi₁ hT1
    (configure_port_ok_boot _ _ _ _ _ _ _ _ hrc)).1
  have h4' : rules_with "table=4," (port_calls (model_env render nm ty demo) vpc_id
        [(port₁, ip₁, T1), (port₂, ip₂, T2)] t w).2.2.sw.br_tun_flows
      = (rules_with "table=4," w.sw.br_tun_flows).filter
          (fun r => r.key ≠ (table4_rule T1 (model_get_or_create_vlan_id vpc_id w.reg).1).key
            ∧ r.key ≠ (table4_rule T2 (model_get_or_create_vlan_id vpc_id w.reg).1).key)
        ++ (if T1 = T2 then [table4_rule T2 (model_get_or_create_vlan_id vpc_id w.reg).1]
            else [table4_rule T1 (model_get_or_create_vlan_id vpc_id w.reg).1,
                  table4_rule T2 (model_get_or_create_vlan_id vpc_id w.reg).1]) := h4
  refine ⟨h1, ?_, h3, h4', ?_, ?_⟩
  · show [_, _] = [_, _]
    rw [h0, h2]
  · intro h_vpc
    rw [h4', List.filter_append, filter_filter_comm, h_vpc, List.filter_nil, List.nil_append]
    have ha : (table4_rule T1 (model_get_or_create_vlan_id vpc_id w.reg).1).actions =
        (table4_rule T2 (model_get_or_create_vlan_id vpc_id w.reg).1).actions := rfl
    by_cases hT : T1 = T2
    · simp [hT]
    · simp [hT, ha]
  · intro h_clean
    rw [h4', h_clean, List.filter_nil, List.nil_append]

/-- Witness for C5 (as amended): the switch and registry left by an admission for
"vpc-0" with tunnel identifier 99 (tag 1), then two admissions for "vpc-1" with
tunnel identifier 42 both times: the rule of "vpc-0" stays, and "vpc-1" has the
one rule of tun_id=42 with tag 2. -/
theorem two_port_admissions_same_vpc_witness :
    rules_with "table=4," (port_calls (ovs_env false) "vpc-1"
        [("port-a", "10.0.0.5/24", 42), ("port-b", "10.0.0.6/24", 42)] 0
        (port_calls (ovs_env false) "vpc-0" [("port-z", "10.1.0.9/24", 99)] 0
          (fresh_world empty_switch)).2.2).2.2.sw.br_tun_flows
      = [table4_rule 99 1, table4_rule 42 2]
    ∧ (rules_with "table=4," (port_calls (ovs_env false) "vpc-1"
        [("port-a", "10.0.0.5/24", 42), ("port-b", "10.0.0.6/24", 42)] 0
        (port_calls (ovs_env false) "vpc-0" [("port-z", "10.1.0.9/24", 99)] 0
          (fresh_world empty_switch)).2.2).2.2.sw.br_tun_flows).filter
        (fun r => r.actions = (table4_rule 42 2).actions)
      = [table4_rule 42 2] :=
  have h := two_port_admissions_same_vpc join_outports dash_name id false "vpc-1" "port-a"
    "10.0.0.5/24" "port-b" "10.0.0.6/24" 42 42 0
    (port_calls (ovs_env false) "vpc-0" [("port-z", "10.1.0.9/24", 99)] 0
      (fresh_world empty_switch)).2.2
    (by decide) (by decide) (by decide) (by decide) (by decide) (by decide) (by decide) ⟨0, rfl⟩
  ⟨h.2.2.2.1, h.2.2.2.2.1 (by decide)⟩

/-- C6: over the model registry and the model switch, for every endpoint naming,
two successive valid neighbor admissions for the same vpc_id, encapsulation
type and remote address with tunnel identifiers T1 and T2 issue the same
`--may-exist add-port` command for the same endpoint port (each followed by
the table-22 and the table-0 command); the second call creates no port on br-tun
and registers no endpoint that the first had not; and the br-tun flow table ends
with exactly one table-22 rule for the isolation tag of the VPC, whose
tunnel-key load is T2. -/
theorem repeated_neighbor_admission {N : Type} (render : List String → String)
    (nm : N → String → String) (ty : N → String) (demo : Bool) (vpc_id : String) (nt : N)
    (remote_ip : String) (T1 T2 t : Nat) (w : World ovs_switch vpc_table)
    (hv : vpc_id ≠ "") (hi : remote_ip ≠ "") (hT1 : T1 ≠ 0) (hT2 : T2 ≠ 0)
    (h_first : ∃ rc,
      (create_update_neighbor_port (model_env render nm ty demo) vpc_id nt remote_ip T1 t w).1
        = .ok rc) :
    (neighbor_calls (model_env render nm ty demo) vpc_id [(nt, remote_ip, T1)] t w).2.2.trace.map
        Prod.fst =
      (setup_ovs_bridges_if_need (model_env render nm ty demo) w).2.trace.map Prod.fst ++
        [endpoint_port_command (nm nt remote_ip) (ty nt) remote_ip,
         table22_command (model_get_or_create_vlan_id vpc_id w.reg).1 T1
           (render (with_outport (outports_of w.reg vpc_id) (nm nt remote_ip))),
         table0_steering_command (nm nt remote_ip)]
    ∧ (neighbor_calls (model_env render nm ty demo) vpc_id
        [(nt, remote_ip, T1), (nt, remote_ip, T2)] t w).2.2.trace.map Prod.fst =
      (neighbor_calls (model_env render nm ty demo) vpc_id
        [(nt, remote_ip, T1)] t w).2.2.trace.map Prod.fst ++ bridge_queries ++
        [endpoint_port_command (nm nt remote_ip) (ty nt) remote_ip,
         table22_command (model_get_or_create_vlan_id vpc_id w.reg).1 T2
           (render (with_outport (outports_of w.reg vpc_id) (nm nt remote_ip))),
         table0_steering_command (nm nt remote_ip)]
    ∧ (neighbor_calls (model_env render nm ty demo) vpc_id
        [(nt, remote_ip, T1), (nt, remote_ip, T2)] t w).2.2.sw.br_tun_ports =
      (neighbor_calls (model_env render nm ty demo) vpc_id
        [(nt, remote_ip, T1)] t w).2.2.sw.br_tun_ports
    ∧ (neighbor_calls (model_env render nm ty demo) vpc_id
        [(nt, remote_ip, T1), (nt, remote_ip, T2)] t w).2.2.reg =
      (neighbor_calls (model_env render nm ty demo) vpc_id [(nt, remote_ip, T1)] t w).2.2.reg
    ∧ (neighbor_calls (model_env render nm ty demo) vpc_id
        [(nt, remote_ip, T1), (nt, remote_ip, T2)] t w).2.2.sw.br_tun_flows.filter
        (fun r => r.key = (table22_rule (model_get_or_create_vlan_id vpc_id w.reg).1 T2
          (render (with_outport (outports_of w.reg vpc_id) (nm nt remote_ip)))).key) =
      [table22_rule (model_get_or_create_vlan_id vpc_id w.reg).1 T2
        (render (with_outport (outports_of w.reg vpc_id) (nm nt remote_ip)))] := by
  obtain ⟨h1, h2, h3, h4⟩ := repeated_neighbor_aux render nm ty demo vpc_id nt remote_ip T1 T2 t w
    hv hi hT1 hT2 h_first
  exact ⟨h1, h2, repeated_neighbor_ports render nm ty demo vpc_id nt remote_ip T1 T2 t w
    hv hi hT1 hT2 h_first, h3, h4⟩

/-- Witness for C6: an empty switch and registry, tunnel identifiers 42 and 43
toward 192.168.1.10. -/
theorem repeated_neighbor_admission_witness :
    (neighbor_calls (ovs_env false) "vpc-1"
        [("vxlan", "192.168.1.10", 42), ("vxlan", "192.168.1.10", 43)] 0
        (fresh_world empty_switch)).2.2.sw.br_tun_ports = ["vxlan-192.168.1.10"]
    ∧ (neighbor_calls (ovs_env false) "vpc-1"
        [("vxlan", "192.168.1.10", 42), ("vxlan", "192.168.1.10", 43)] 0
        (fresh_world empty_switch)).2.2.sw.br_tun_flows.filter
        (fun r => r.key = "table=22, priority=1,dl_vlan=1") =
      [{ key := "table=22, priority=1,dl_vlan=1",
         actions := "strip_vlan,load:43->NXM_NX_TUN_ID[],output:\"vxlan-192.168.1.10\"" }] :=
  have h := repeated_neighbor_admission join_outports dash_name id false "vpc-1" "vxlan"
    "192.168.1.10" 42 43 0 (fresh_world empty_switch) (by decide) (by decide) (by decide)
    (by decide) ⟨0, rfl⟩
  ⟨h.2.2.1.trans (by decide), h.2.2.2.2⟩

/-- C7: when the br-int and the br-tun existence query both report absent, the
bootstrap issues the two queries and then all ten creation commands in the
listed order whatever the individual statuses are; the returned status is the
last non-success status among the ten (the failed queries are not counted), so
it is success exactly when all ten succeeded. -/
theorem bootstrap_creates_everything {S V N : Type} (env : Env S V N) (w : World S V)
    (h_int : (env.execute_system_command "/usr/bin/ovs-vsctl br-exists br-int" w.sw).1.1
      ≠ EXIT_SUCCESS)
    (h_tun : (env.execute_system_command "/usr/bin/ovs-vsctl br-exists br-tun"
      (env.execute_system_command "/usr/bin/ovs-vsctl br-exists br-int" w.sw).2).1.1
      ≠ EXIT_SUCCESS) :
    (issued_since w (setup_ovs_bridges_if_need env w).2).map Prod.fst
        = bridge_queries ++ creation_commands
    ∧ (setup_ovs_bridges_if_need env w).1 = last_failure EXIT_SUCCESS
        (((issued_since w (setup_ovs_bridges_if_need env w).2).drop 2).map Prod.snd)
    ∧ ((setup_ovs_bridges_if_need env w).1 = EXIT_SUCCESS ↔
        ∀ e ∈ (issued_since w (setup_ovs_bridges_if_need env w).2).drop 2,
          e.2 = EXIT_SUCCESS) := by
  refine ⟨?_, setup_create_status env w h_int, setup_create_status_iff env w h_int⟩
  rw [issued_since_setup_create env w h_int]
  simp [map_fst_zip_statuses, bridge_queries]

/-- Witness for C7: both queries answer 2, the second and the last creation
command fail. -/
theorem bootstrap_creates_everything_witness :
    (issued_since (fresh_world [2, 2, 0, 1, 0, 0, 0, 0, 0, 0, 0, 3])
        (setup_ovs_bridges_if_need (scripted_env false)
          (fresh_world [2, 2, 0, 1, 0, 0, 0, 0, 0, 0, 0, 3])).2).map Prod.fst
        = bridge_queries ++ creation_commands
    ∧ (setup_ovs_bridges_if_need (scripted_env false)
          (fresh_world [2, 2, 0, 1, 0, 0, 0, 0, 0, 0, 0, 3])).1 = 3 :=
  have h := bootstrap_creates_everything (scripted_env false)
    (fresh_world [2, 2, 0, 1, 0, 0, 0, 0, 0, 0, 0, 3]) (by decide) (by decide)
  ⟨h.1, h.2.1.trans (by decide)⟩

/-- C8: whenever both existence queries succeed the bootstrap returns success
and issues nothing but the two queries.  Hence, on every switch where br-exists
succeeds exactly on an existing bridge, a successful add-br makes the bridge
exist and no command removes a bridge, once a bootstrap has returned success
any later bootstrap (whatever commands were issued in between) returns success
and issues nothing but the two queries. -/
theorem bootstrap_idempotent {S V N : Type} (env : Env S V N) (w : World S V) :
    ((env.execute_system_command "/usr/bin/ovs-vsctl br-exists br-int" w.sw).1.1 = EXIT_SUCCESS →
      (env.execute_system_command "/usr/bin/ovs-vsctl br-exists br-tun"
        (env.execute_system_command "/usr/bin/ovs-vsctl br-exists br-int" w.sw).2).1.1
          = EXIT_SUCCESS →
      (setup_ovs_bridges_if_need env w).1 = EXIT_SUCCESS
      ∧ issued_since w (setup_ovs_bridges_if_need env w).2 =
          [("/usr/bin/ovs-vsctl br-exists br-int", EXIT_SUCCESS),
           ("/usr/bin/ovs-vsctl br-exists br-tun", EXIT_SUCCESS)])
    ∧ (∀ present : String → S → Prop,
        (∀ b s, (env.execute_system_command ("/usr/bin/ovs-vsctl br-exists " ++ b) s).1.1
          = EXIT_SUCCESS ↔ present b s) →
        (∀ b s, (env.execute_system_command ("/usr/bin/ovs-vsctl add-br " ++ b) s).1.1
          = EXIT_SUCCESS →
            present b (env.execute_system_command ("/usr/bin/ovs-vsctl add-br " ++ b) s).2) →
        (∀ c b s, present b s → present b (env.execute_system_command c s).2) →
        (setup_ovs_bridges_if_need env w).1 = EXIT_SUCCESS →
        ∀ between : List String,
          (setup_ovs_bridges_if_need env
            (run_all env between (setup_ovs_bridges_if_need env w).2)).1 = EXIT_SUCCESS
          ∧ (issued_since (run_all env between (setup_ovs_bridges_if_need env w).2)
              (setup_ovs_bridges_if_need env
                (run_all env between (setup_ovs_bridges_if_need env w).2)).2).map Prod.fst
            = bridge_queries) := by
  constructor
  · intro h_int h_tun
    rw [issued_since_setup_fast env w h_int, setup_fast env w h_int, h_tun]
    exact ⟨rfl, rfl⟩
  · intro present h_query h_add h_keep h_ok between
    have hp := setup_ok_present env present h_query h_add h_keep w h_ok
    have hp' : present "br-int" (run_all env between (setup_ovs_bridges_if_need env w).2).sw := by
      rw [run_all_sw]
      exact sw_after_keeps env _ (fun c s => h_keep c "br-int" s) _ _ hp
    have hq := (h_query "br-int" _).mpr hp'
    rw [issued_since_setup_fast env _ hq, setup_fast env _ hq]
    exact ⟨rfl, rfl⟩

/-- Witness for C8: the model switch, first with both bridges present, then
starting empty so that the first bootstrap creates the topology; a port
command and a flow command are issued in between. -/
theorem bootstrap_idempotent_witness :
    ((setup_ovs_bridges_if_need (ovs_env false) (fresh_world wired_switch)).1 = EXIT_SUCCESS
      ∧ issued_since (fresh_world wired_switch)
          (setup_ovs_bridges_if_need (ovs_env false) (fresh_world wired_switch)).2 =
          [("/usr/bin/ovs-vsctl br-exists br-int", EXIT_SUCCESS),
           ("/usr/bin/ovs-vsctl br-exists br-tun", EXIT_SUCCESS)])
    ∧ ((setup_ovs_bridges_if_need (ovs_env false)
          (run_all (ovs_env false)
            ["/usr/bin/ovs-vsctl add-port br-int p1", table4_command 42 1]
            (setup_ovs_bridges_if_need (ovs_env false) (fresh_world empty_switch)).2)).1
        = EXIT_SUCCESS
      ∧ (issued_since
          (run_all (ovs_env false)
            ["/usr/bin/ovs-vsctl add-port br-int p1", table4_command 42 1]
            (setup_ovs_bridges_if_need (ovs_env false) (fresh_world empty_switch)).2)
          (setup_ovs_bridges_if_need (ovs_env false)
            (run_all (ovs_env false)
              ["/usr/bin/ovs-vsctl add-port br-int p1", table4_command 42 1]
              (setup_ovs_bridges_if_need (ovs_env false) (fresh_world empty_switch)).2)).2).map
          Prod.fst = bridge_queries) :=
  ⟨(bootstrap_idempotent (ovs_env false) (fresh_world wired_switch)).1 (by decide) (by decide),
   (bootstrap_idempotent (ovs_env false) (fresh_world empty_switch)).2
      (fun b s => b ∈ s.bridges) ovs_execute_query_law ovs_execute_add_law
      (fun c b s h => ovs_execute_keeps_bridges c b s h) (by decide)
      ["/usr/bin/ovs-vsctl add-port br-int p1", table4_command 42 1]⟩

/-- C9: a valid port admission whose bootstrap succeeds issues, after the
registry mutation, in local-apply mode the tagged internal add-port on br-int,
the address assignment, the link-up and then the table-4 flow command, and
otherwise the table-4 flow command alone, whatever statuses the earlier ones
return; it returns the last non-success status among them (success if there is
none); and the registry it leaves is the one with the tag obtained and the port
registered, also when a step failed. -/
theorem port_admission_is_best_effort {S V N : Type} (env : Env S V N)
    (vpc_id port_name virtual_ip : String) (tunnel_id culminative_time : Nat) (w : World S V)
    (hv : vpc_id ≠ "") (hp : port_name ≠ "") (hi : virtual_ip ≠ "") (ht : tunnel_id ≠ 0)
    (hboot : (setup_ovs_bridges_if_need env w).1 = EXIT_SUCCESS) :
    (issued_since (setup_ovs_bridges_if_need env w).2
        (configure_port env vpc_id port_name virtual_ip tunnel_id culminative_time w).2.2).map
        Prod.fst =
      (if env.g_demo_mode then
          local_apply_commands port_name virtual_ip (env.get_or_create_vlan_id vpc_id w.reg).1
        else []) ++ [table4_command tunnel_id (env.get_or_create_vlan_id vpc_id w.reg).1]
    ∧ (configure_port env vpc_id port_name virtual_ip tunnel_id culminative_time w).1 =
      .ok (last_failure EXIT_SUCCESS
        ((issued_since (setup_ovs_bridges_if_need env w).2
          (configure_port env vpc_id port_name virtual_ip tunnel_id culminative_time w).2.2).map
          Prod.snd))
    ∧ (configure_port env vpc_id port_name virtual_ip tunnel_id culminative_time w).2.2.reg =
      env.add_ovs_port vpc_id port_name (env.get_or_create_vlan_id vpc_id w.reg).2 := by
  rw [configure_port_eq env vpc_id port_name virtual_ip tunnel_id culminative_time w hv hp hi ht
    hboot]
  simp only [issue_all_w, issue_all_rc, run_all_reg]
  rw [issued_since_run_all_of_trace env _ _ _ (by rfl), map_fst_zip_statuses, map_snd_zip_statuses]
  exact ⟨rfl, rfl, trivial⟩

/-- Witness for C9: local-apply mode, the bridges exist, the address assignment
fails with status 5 and the flow command succeeds: status 5 is returned and the
registry holds tag and port. -/
theorem port_admission_is_best_effort_witness :
    (configure_port (scripted_env true) "vpc-1" "port-a" "10.0.0.5/24" 42 0
        (fresh_world [0, 0, 0, 5, 0, 0])).1 = .ok 5
    ∧ (configure_port (scripted_env true) "vpc-1" "port-a" "10.0.0.5/24" 42 0
        (fresh_world [0, 0, 0, 5, 0, 0])).2.2.reg =
        [("vpc-1", { vlan_id := 1, ovs_ports := ["port-a"], outports := [] })] :=
  have h := port_admission_is_best_effort (scripted_env true) "vpc-1" "port-a" "10.0.0.5/24" 42 0
    (fresh_world [0, 0, 0, 5, 0, 0]) (by decide) (by decide) (by decide) (by decide) (by decide)
  ⟨h.2.1.trans rfl, h.2.2.trans (by decide)⟩

/-- C10: the answer to the br-tun existence query has no influence on the
bootstrap.  Two runs (on any executors) whose statuses agree at every position
of the issued sequence except the second, that of the br-tun query, issue the
same commands and return the same status.  The invalid-environment branch is
never taken: a non-success status is returned only when the br-int query
reported absent, all twelve commands were issued, and one of the ten creation
commands failed. -/
theorem bootstrap_ignores_tunnel_bridge_query {S₁ V₁ N₁ S₂ V₂ N₂ : Type}
    (env₁ : Env S₁ V₁ N₁) (w₁ : World S₁ V₁) (env₂ : Env S₂ V₂ N₂) (w₂ : World S₂ V₂)
    (h_agree : ∀ i : Nat, i ≠ 1 →
      ((issued_since w₁ (setup_ovs_bridges_if_need env₁ w₁).2).map Prod.snd)[i]? =
      ((issued_since w₂ (setup_ovs_bridges_if_need env₂ w₂).2).map Prod.snd)[i]?) :
    ((issued_since w₁ (setup_ovs_bridges_if_need env₁ w₁).2).map Prod.fst =
      (issued_since w₂ (setup_ovs_bridges_if_need env₂ w₂).2).map Prod.fst
     ∧ (setup_ovs_bridges_if_need env₁ w₁).1 = (setup_ovs_bridges_if_need env₂ w₂).1)
    ∧ ((setup_ovs_bridges_if_need env₁ w₁).1 ≠ EXIT_SUCCESS →
        (env₁.execute_system_command "/usr/bin/ovs-vsctl br-exists br-int" w₁.sw).1.1
          ≠ EXIT_SUCCESS
        ∧ (issued_since w₁ (setup_ovs_bridges_if_need env₁ w₁).2).map Prod.fst
          = bridge_queries ++ creation_commands
        ∧ ∃ e ∈ (issued_since w₁ (setup_ovs_bridges_if_need env₁ w₁).2).drop 2,
            e.2 ≠ EXIT_SUCCESS) := by
  constructor
  · by_cases h₁ : (env₁.execute_system_command "/usr/bin/ovs-vsctl br-exists br-int" w₁.sw).1.1
        = EXIT_SUCCESS
    · by_cases h₂ : (env₂.execute_system_command "/usr/bin/ovs-vsctl br-exists br-int" w₂.sw).1.1
          = EXIT_SUCCESS
      · rw [issued_since_setup_fast env₁ w₁ h₁, issued_since_setup_fast env₂ w₂ h₂,
          setup_fast env₁ w₁ h₁, setup_fast env₂ w₂ h₂]
        simp
      · have h0 := h_agree 0 (by decide)
        rw [issued_since_setup_fast env₁ w₁ h₁, issued_since_setup_create env₂ w₂ h₂] at h0
        simp at h0
        exact absurd h0.symm h₂
    · by_cases h₂ : (env₂.execute_system_command "/usr/bin/ovs-vsctl br-exists br-int" w₂.sw).1.1
          = EXIT_SUCCESS
      · have h0 := h_agree 0 (by decide)
        rw [issued_since_setup_create env₁ w₁ h₁, issued_since_setup_fast env₂ w₂ h₂] at h0
        simp at h0
        exact absurd h0 h₁
      · have hst : statuses env₁ creation_commands (run_all env₁ bridge_queries w₁).sw =
            statuses env₂ creation_commands (run_all env₂ bridge_queries w₂).sw := by
          apply List.ext_getElem?
          intro j
          have hj := h_agree (j + 2) (by omega)
          rw [issued_since_setup_create env₁ w₁ h₁, issued_since_setup_create env₂ w₂ h₂] at hj
          simpa [map_snd_zip_statuses] using hj
        rw [issued_since_setup_create env₁ w₁ h₁, issued_since_setup_create env₂ w₂ h₂,
          setup_create env₁ w₁ h₁, setup_create env₂ w₂ h₂, hst]
        simp [map_fst_zip_statuses]
  · intro hne
    by_cases h₁ : (env₁.execute_system_command "/usr/bin/ovs-vsctl br-exists br-int" w₁.sw).1.1
        = EXIT_SUCCESS
    · rw [setup_fast env₁ w₁ h₁] at hne
      exact absurd rfl hne
    · refine ⟨h₁, ?_, ?_⟩
      · rw [issued_since_setup_create env₁ w₁ h₁]
        simp [map_fst_zip_statuses, bridge_queries]
      · by_contra hall
        push_neg at hall
        apply hne
        exact (setup_create_status_iff env₁ w₁ h₁).mpr hall

/-- Witness for C10: two scripted runs that differ only in the answer to the
br-tun query (0 against 2); br-int is absent and the fourth creation command
fails with status 7 in both. -/
theorem bootstrap_ignores_tunnel_bridge_query_witness :
    ((issued_since (fresh_world [2, 0, 0, 0, 0, 7]) (setup_ovs_bridges_if_need (scripted_env false)
          (fresh_world [2, 0, 0, 0, 0, 7])).2).map Prod.fst =
        (issued_since (fresh_world [2, 2, 0, 0, 0, 7]) (setup_ovs_bridges_if_need
          (scripted_env false) (fresh_world [2, 2, 0, 0, 0, 7])).2).map Prod.fst
      ∧ (setup_ovs_bridges_if_need (scripted_env false) (fresh_world [2, 0, 0, 0, 0, 7])).1 =
        (setup_ovs_bridges_if_need (scripted_env false) (fresh_world [2, 2, 0, 0, 0, 7])).1) :=
  (bootstrap_ignores_tunnel_bridge_query (scripted_env false) (fresh_world [2, 0, 0, 0, 0, 7])
    (scripted_env false) (fresh_world [2, 2, 0, 0, 0, 7])
    (by
      intro i hi
      have e₁ : (issued_since (fresh_world [2, 0, 0, 0, 0, 7]) (setup_ovs_bridges_if_need
          (scripted_env false) (fresh_world [2, 0, 0, 0, 0, 7])).2).map Prod.snd =
          [2, 0, 0, 0, 0, 7, 0, 0, 0, 0, 0, 0] := by decide
      have e₂ : (issued_since (fresh_world [2, 2, 0, 0, 0, 7]) (setup_ovs_bridges_if_need
          (scripted_env false) (fresh_world [2, 2, 0, 0, 0, 7])).2).map Prod.snd =
          [2, 2, 0, 0, 0, 7, 0, 0, 0, 0, 0, 0] := by decide
      rw [e₁, e₂]
      rcases i with _ | _ | i
      · rfl
      · exact absurd rfl hi
      · rfl)).1

end aca_ovs_programmer
